import Mathlib

set_option autoImplicit false

namespace AgentsGo

/-! Verification of the openai-agents-go repository.

Part 1 embeds the `agents` package item model: run items and their
conversion to the normalized input-item representation
(src/unnamed/part_003), plus the list-merging helpers of
src/agents/result.go. Raw payloads of the external OpenAI response
structs are opaque to this repository and are modelled as strings; each
external `openaitypes.ResponseInputItemUnionParamFrom...` conversion
becomes an injective constructor of the normalized union type. A Go
panic is modelled as `none`. -/

/-- An agent. Only its identity is relevant to the verified code; the Go
code passes agents by pointer, so an `Option Agent` models a possibly-nil
pointer. -/
structure Agent where
  name : String
  deriving DecidableEq

/-- ToolCallItemType (src/unnamed/part_003 lines 108-143): the closed set
of raw tool-call payload kinds accepted by `ToolCallItem.RawItem`. -/
inductive ToolCallItemType where
  | responseFunctionToolCall (raw : String)
  | responseComputerToolCall (raw : String)
  | responseOutputItemLocalShellCall (raw : String)
  | responseFileSearchToolCall (raw : String)
  | responseFunctionWebSearch (raw : String)
  | responseCodeInterpreterToolCall (raw : String)
  | responseOutputItemImageGenerationCall (raw : String)
  | responseOutputItemMcpCall (raw : String)
  deriving DecidableEq

/-- ToolCallOutputRawItem (src/unnamed/part_003 lines 187-201): the three
raw tool-call-output kinds implementing the unexported marker method. -/
inductive ToolCallOutputRawItem where
  | responseInputItemFunctionCallOutputParam (raw : String)
  | responseInputItemComputerCallOutputParam (raw : String)
  | responseInputItemLocalShellCallOutputParam (raw : String)
  deriving DecidableEq

/-- TResponseInputItem, the normalized input-item union. Each constructor
stands for the image of one opaque external conversion function from the
openaitypes package; `easyInputMessage` is the normalized form of a plain
text input produced by the input-normalization helper. -/
inductive TResponseInputItem where
  | fromResponseOutputMessage (raw : String)
  | fromResponseFunctionToolCall (raw : String)
  | fromResponseComputerToolCall (raw : String)
  | fromResponseOutputItemLocalShellCall (raw : String)
  | fromResponseInputItemFunctionCallOutputParam (raw : String)
  | fromResponseInputItemComputerCallOutputParam (raw : String)
  | fromResponseInputItemLocalShellCallOutputParam (raw : String)
  | fromResponseReasoningItem (raw : String)
  | fromResponseOutputItemMcpListTools (raw : String)
  | fromResponseOutputItemMcpApprovalRequest (raw : String)
  | fromResponseInputItemMcpApprovalResponseParam (raw : String)
  | easyInputMessage (role : String) (content : String)
  deriving DecidableEq

/-- RunItem (src/unnamed/part_003): the closed set of item variants an
agent run can generate. Each variant keeps the Go struct's Agent pointer,
raw payload, and `Type` tag string. -/
inductive RunItem where
  | messageOutputItem (agent : Option Agent) (rawItem : String) (ty : String)
  | handoffCallItem (agent : Option Agent) (rawItem : String) (ty : String)
  | handoffOutputItem (agent : Option Agent) (rawItem : TResponseInputItem)
      (sourceAgent : Option Agent) (targetAgent : Option Agent) (ty : String)
  | toolCallItem (agent : Option Agent) (rawItem : ToolCallItemType) (ty : String)
  | toolCallOutputItem (agent : Option Agent) (rawItem : ToolCallOutputRawItem)
      (output : String) (ty : String)
  | reasoningItem (agent : Option Agent) (rawItem : String) (ty : String)
  | mcpListToolsItem (agent : Option Agent) (rawItem : String) (ty : String)
  | mcpApprovalRequestItem (agent : Option Agent) (rawItem : String) (ty : String)
  | mcpApprovalResponseItem (agent : Option Agent) (rawItem : String) (ty : String)
  deriving DecidableEq

/-- TResponseInputItemFromToolCallItemType (src/unnamed/part_003 lines
145-157). The Go switch handles the function, computer and local-shell
kinds and panics on the default branch; the panic is modelled as `none`. -/
def TResponseInputItemFromToolCallItemType : ToolCallItemType → Option TResponseInputItem
  | .responseFunctionToolCall raw => some (.fromResponseFunctionToolCall raw)
  | .responseComputerToolCall raw => some (.fromResponseComputerToolCall raw)
  | .responseOutputItemLocalShellCall raw => some (.fromResponseOutputItemLocalShellCall raw)
  | _ => none

/-- ToolCallOutputItem.ToInputItem (src/unnamed/part_003 lines 205-220):
all three raw-item kinds of the closed interface are handled, so the Go
default panic branch is unreachable and the function is total. -/
def toolCallOutputItemToInput : ToolCallOutputRawItem → TResponseInputItem
  | .responseInputItemFunctionCallOutputParam raw => .fromResponseInputItemFunctionCallOutputParam raw
  | .responseInputItemComputerCallOutputParam raw => .fromResponseInputItemComputerCallOutputParam raw
  | .responseInputItemLocalShellCallOutputParam raw => .fromResponseInputItemLocalShellCallOutputParam raw

/-- RunItem.ToInputItem, dispatching over every variant
(src/unnamed/part_003). A panic inside the tool-call dispatch propagates
as `none`. -/
def RunItem.toInputItem : RunItem → Option TResponseInputItem
  | .messageOutputItem _ raw _ => some (.fromResponseOutputMessage raw)
  | .handoffCallItem _ raw _ => some (.fromResponseFunctionToolCall raw)
  | .handoffOutputItem _ raw _ _ _ => some raw
  | .toolCallItem _ raw _ => TResponseInputItemFromToolCallItemType raw
  | .toolCallOutputItem _ raw _ _ => some (toolCallOutputItemToInput raw)
  | .reasoningItem _ raw _ => some (.fromResponseReasoningItem raw)
  | .mcpListToolsItem _ raw _ => some (.fromResponseOutputItemMcpListTools raw)
  | .mcpApprovalRequestItem _ raw _ => some (.fromResponseOutputItemMcpApprovalRequest raw)
  | .mcpApprovalResponseItem _ raw _ => some (.fromResponseInputItemMcpApprovalResponseParam raw)

/-- The tool-call kinds whose conversion the Go code deliberately leaves to
the panicking default branch of TResponseInputItemFromToolCallItemType. -/
def ToolCallItemType.isUnhandled : ToolCallItemType → Bool
  | .responseFileSearchToolCall _ => true
  | .responseFunctionWebSearch _ => true
  | .responseCodeInterpreterToolCall _ => true
  | .responseOutputItemImageGenerationCall _ => true
  | .responseOutputItemMcpCall _ => true
  | _ => false

/-- A run item whose conversion reaches a panicking branch: a tool-call
item carrying one of the five unhandled raw kinds. -/
def RunItem.hitsPanickingBranch : RunItem → Bool
  | .toolCallItem _ raw _ => raw.isUnhandled
  | _ => false

/-- Modelled from the spec: the `Input` type of the agents package is not
under src/; per spec sections 4.4 and 8 the original input is either plain
text or an already-normalized list of input items. -/
inductive Input where
  | text (s : String)
  | items (l : List TResponseInputItem)
  deriving DecidableEq

/-- Modelled from the spec: `ItemHelpers().InputToNewInputList` is not
under src/; per spec sections 4.4 and 8 it normalizes the original input
into an ordered list of input items - plain text becomes a single user
message and an item list is kept as is. -/
def inputToNewInputList : Input → List TResponseInputItem
  | .text s => [.easyInputMessage "user" s]
  | .items l => l

/-- The conversion loop of toInputList (src/agents/result.go lines
419-422): each new run item is converted in order; a conversion panic
propagates. -/
def runItemsToInputItems : List RunItem → Option (List TResponseInputItem)
  | [] => some []
  | item :: rest =>
    match item.toInputItem, runItemsToInputItems rest with
    | some x, some xs => some (x :: xs)
    | _, _ => none

/-- toInputList (src/agents/result.go lines 416-425): the normalized
original input concatenated with the converted new items. -/
def toInputList (input : Input) (newRunItems : List RunItem) : Option (List TResponseInputItem) :=
  (runItemsToInputItems newRunItems).map (fun result => inputToNewInputList input ++ result)

/-- One LLM call's raw output plus its response identifier; only the
identifier is inspected by the verified code. -/
structure ModelResponse where
  responseID : String
  deriving DecidableEq

/-- lastResponseID (src/agents/result.go lines 427-432). -/
def lastResponseID (rawResponses : List ModelResponse) : String :=
  match rawResponses.getLast? with
  | none => ""
  | some r => r.responseID

/-- Guardrail verdict payload: the tripwire flag plus opaque info
(src/agents/result.go line 330 inspects `Output.TripwireTriggered`). -/
structure GuardrailFunctionOutput where
  tripwireTriggered : Bool
  outputInfo : String
  deriving DecidableEq

/-- A completed input-guardrail verdict. -/
structure InputGuardrailResult where
  output : GuardrailFunctionOutput
  deriving DecidableEq

/-- A completed output-guardrail verdict. -/
structure OutputGuardrailResult where
  output : GuardrailFunctionOutput
  deriving DecidableEq

/-- RunResult (src/agents/result.go lines 30-53): the terminal, immutable
run snapshot. -/
structure RunResult where
  input : Input
  newItems : List RunItem
  rawResponses : List ModelResponse
  finalOutput : String
  inputGuardrailResults : List InputGuardrailResult
  outputGuardrailResults : List OutputGuardrailResult
  lastAgent : Option Agent
  deriving DecidableEq

/-- RunResult.ToInputList (src/agents/result.go lines 59-62). -/
def RunResult.ToInputList (r : RunResult) : Option (List TResponseInputItem) :=
  toInputList r.input r.newItems

/-- RunResult.LastResponseID (src/agents/result.go lines 65-67). -/
def RunResult.LastResponseID (r : RunResult) : String :=
  lastResponseID r.rawResponses

/-! Part 2 embeds the streaming run-result state machine of
src/agents/result.go. The asyncqueue and asynctask packages, the stream
event type and the error types of the agents package are not under src/
and are modelled from the spec: a queue is a FIFO list, and a background
task is a handle carrying its eventual outcome together with whether it
has already completed and whether cancellation was requested. The
sequential embedding fixes each task's eventual outcome up front; the
concurrent producer is not modelled, so a blocking pop from an empty
queue is a distinct divergence outcome. -/

/-- Modelled from the spec: a semantic stream event (spec section 3) -
raw provider deltas, agent-updated events, run-item events - plus the
reserved queue-completion sentinel pushed by the producer as its final
operation (spec section 4.1, `queueCompleteSentinel` in result.go). -/
inductive StreamEvent where
  | rawResponsesEvent (payload : String)
  | agentUpdatedEvent (newAgent : Option Agent)
  | runItemEvent (item : RunItem)
  | queueCompleteSentinel
  deriving DecidableEq

/-- RunErrorDetails, the diagnostic snapshot attached to run errors; its
fields are exactly those populated by createErrorDetails
(src/agents/result.go lines 308-318). The Go context is an opaque token. -/
structure RunErrorDetails where
  contextToken : Nat
  input : Input
  newItems : List RunItem
  rawResponses : List ModelResponse
  lastAgent : Option Agent
  inputGuardrailResults : List InputGuardrailResult
  outputGuardrailResults : List OutputGuardrailResult
  deriving DecidableEq

/-- An error reported by a background task, as discriminated by the
errors.As test of checkErrors (src/agents/result.go lines 341-344): an
error whose chain contains an AgentsError - carrying an optional RunData
snapshot - or any other error. The payload is opaque. -/
inductive TaskError where
  | agents (runData : Option RunErrorDetails) (msg : String)
  | plain (msg : String)
  deriving DecidableEq

/-- Modelled from the spec: a background task handle (spec section 2).
`errorResult` is the error the task eventually reports (none for
success), `isDone` whether it has completed yet at this point of the
sequential schedule, `cancelRequested` whether Cancel was called on it. -/
structure TaskState where
  isDone : Bool
  errorResult : Option TaskError
  cancelRequested : Bool
  deriving DecidableEq

/-- Which of the three background tasks a wrapped task error came from
(the three wrapping messages of checkErrors, src/agents/result.go lines
345, 356, 367). -/
inductive TaskKind where
  | runImpl
  | inputGuardrails
  | outputGuardrails
  deriving DecidableEq

/-- The terminal error stored in the storedError slot: the dedicated
max-turns and input-guardrail-tripwire errors built by checkErrors, or a
task error wrapped with its source (spec section 7, src/agents/result.go
lines 320-372). -/
inductive RunError where
  | maxTurnsExceeded (maxTurns : Nat) (runData : Option RunErrorDetails)
  | inputGuardrailTripwire (result : InputGuardrailResult) (runData : Option RunErrorDetails)
  | taskError (source : TaskKind) (err : TaskError)
  deriving DecidableEq

/-- RunResultStreaming (src/agents/result.go lines 75-95): the mutable
streaming aggregate. Queues are FIFO lists with the head as front; task
pointers may be nil. -/
structure RunState where
  contextToken : Nat
  input : Input
  newItems : List RunItem
  rawResponses : List ModelResponse
  inputGuardrailResults : List InputGuardrailResult
  outputGuardrailResults : List OutputGuardrailResult
  currentAgent : Option Agent
  currentTurn : Nat
  maxTurns : Nat
  isComplete : Bool
  eventQueue : List StreamEvent
  inputGuardrailQueue : List InputGuardrailResult
  runImplTask : Option TaskState
  inputGuardrailsTask : Option TaskState
  outputGuardrailsTask : Option TaskState
  storedError : Option RunError
  deriving DecidableEq

/-- createErrorDetails (src/agents/result.go lines 308-318): snapshot of
the current attributes, with LastAgent taken from the current agent. -/
def createErrorDetails (s : RunState) : RunErrorDetails :=
  { contextToken := s.contextToken
    input := s.input
    newItems := s.newItems
    rawResponses := s.rawResponses
    lastAgent := s.currentAgent
    inputGuardrailResults := s.inputGuardrailResults
    outputGuardrailResults := s.outputGuardrailResults }

/-- The RunData augmentation performed by the task-error branches of
checkErrors (src/agents/result.go lines 341-344 and twins): when the
error chain contains an AgentsError whose RunData is nil, RunData is set
to the current snapshot; otherwise the error is left unchanged. The Go
code mutates the error in place, so the task's stored result changes
too. -/
def attachRunData (details : RunErrorDetails) : TaskError → TaskError
  | .agents none msg => .agents (some details) msg
  | e => e

/-- One task-error poll of checkErrors (src/agents/result.go lines
338-369, one of the three identical blocks): a non-nil done task whose
awaited result carries an error gets its AgentsError augmented in place,
and the wrapped error is stored. Returns the updated stored-error slot
and task handle. -/
def pollTaskError (k : TaskKind) (details : RunErrorDetails)
    (stored : Option RunError) (t? : Option TaskState) :
    Option RunError × Option TaskState :=
  match t? with
  | none => (stored, none)
  | some t =>
    if t.isDone then
      match t.errorResult with
      | some e =>
        let e' := attachRunData details e
        (some (.taskError k e'), some { t with errorResult := some e' })
      | none => (stored, some t)
    else (stored, some t)

/-- The guardrail-queue drain loop of checkErrors (src/agents/result.go
lines 328-335): every queued result is popped; each one with a triggered
tripwire stores a fresh tripwire error over the slot. -/
def drainGuardrailQueue (details : RunErrorDetails)
    (stored : Option RunError) : List InputGuardrailResult → Option RunError
  | [] => stored
  | g :: rest =>
    let stored' :=
      if g.output.tripwireTriggered then
        some (.inputGuardrailTripwire g (some details))
      else stored
    drainGuardrailQueue details stored' rest

/-- checkErrors (src/agents/result.go lines 320-372). The Go function
always returns a nil error; its effect is on the state: the turn-limit
check, the guardrail-queue drain, and the three task polls each
overwrite the storedError slot when their condition holds, in that
order. The Go code calls createErrorDetails afresh at each error
creation site, but none of the fields the snapshot reads is modified
anywhere inside checkErrors, so a single snapshot of the entry state is
equivalent. -/
def checkErrors (s : RunState) : RunState :=
  let details := createErrorDetails s
  let st1 : Option RunError :=
    if s.currentTurn > s.maxTurns then
      some (.maxTurnsExceeded s.maxTurns (some details))
    else s.storedError
  let st2 := drainGuardrailQueue details st1 s.inputGuardrailQueue
  let p1 := pollTaskError .runImpl details st2 s.runImplTask
  let p2 := pollTaskError .inputGuardrails details p1.1 s.inputGuardrailsTask
  let p3 := pollTaskError .outputGuardrails details p2.1 s.outputGuardrailsTask
  { s with
    storedError := p3.1
    inputGuardrailQueue := []
    runImplTask := p1.2
    inputGuardrailsTask := p2.2
    outputGuardrailsTask := p3.2 }

/-- awaitTasks (src/agents/result.go lines 374-398): block until every
non-nil task has completed; completion is the only observable effect. -/
def awaitTasks (s : RunState) : RunState :=
  { s with
    runImplTask := s.runImplTask.map (fun t => { t with isDone := true })
    inputGuardrailsTask := s.inputGuardrailsTask.map (fun t => { t with isDone := true })
    outputGuardrailsTask := s.outputGuardrailsTask.map (fun t => { t with isDone := true }) }

/-- The per-task body of cleanupTasks (src/agents/result.go lines
401-409): a non-nil task that has not completed is cancelled. -/
def cancelIfRunning (t? : Option TaskState) : Option TaskState :=
  t?.map (fun t => if t.isDone then t else { t with cancelRequested := true })

/-- cleanupTasks (src/agents/result.go lines 400-410): request
cancellation of every non-nil task that has not completed yet. -/
def cleanupTasks (s : RunState) : RunState :=
  { s with
    runImplTask := cancelIfRunning s.runImplTask
    inputGuardrailsTask := cancelIfRunning s.inputGuardrailsTask
    outputGuardrailsTask := cancelIfRunning s.outputGuardrailsTask }

/-- Cancel (src/agents/result.go lines 244-256): mark complete, cancel
running tasks, await all tasks, then drain both queues empty. -/
def cancel (s : RunState) : RunState :=
  let s1 := { s with isComplete := true }
  let s2 := cleanupTasks s1
  let s3 := awaitTasks s2
  { s3 with eventQueue := [], inputGuardrailQueue := [] }

/-- Outcome of one iteration of the StreamEvents loop: continue is
implicit in the recursion; the loop can break, return the visitor's
error, or block forever on an empty queue with no producer. -/
inductive LoopStep where
  | brk
  | visitor (e : String)
  | blockedStep
  deriving DecidableEq

/-- The consumption loop of StreamEvents (src/agents/result.go lines
266-296). checkErrors always returns nil in the source, so its
early-return branches are dead; its state effects are applied. The fuel
argument bounds the iteration count by the queue length, which never
grows during the loop. -/
def streamLoop (fn : StreamEvent → Option String) :
    Nat → RunState → LoopStep × RunState
  | 0, s => (.blockedStep, s)
  | fuel + 1, s =>
    let s1 := checkErrors s
    if s1.storedError.isSome then
      (.brk, { s1 with isComplete := true })
    else if s1.isComplete && s1.eventQueue.isEmpty then
      (.brk, s1)
    else
      match s1.eventQueue with
      | [] => (.blockedStep, s1)
      | item :: rest =>
        let s2 := { s1 with eventQueue := rest }
        match item with
        | .queueCompleteSentinel => (.brk, checkErrors s2)
        | ev =>
          match fn ev with
          | some e => (.visitor e, s2)
          | none => streamLoop fn fuel s2

/-- Final outcome of StreamEvents: nil return, the stored run error, the
visitor's error, or divergence on a blocking pop with no producer. -/
inductive StreamOutcome where
  | ok
  | runError (e : RunError)
  | visitorError (e : String)
  | blocked
  deriving DecidableEq

/-- StreamEvents (src/agents/result.go lines 265-305): run the loop; on a
visitor error return it immediately; after a break, await all tasks,
re-check errors, clean up tasks, and return the stored error (nil if
none). -/
def streamEvents (s : RunState) (fn : StreamEvent → Option String) :
    StreamOutcome × RunState :=
  match streamLoop fn (s.eventQueue.length + 1) s with
  | (.visitor e, s') => (.visitorError e, s')
  | (.blockedStep, s') => (.blocked, s')
  | (.brk, s') =>
    let s2 := awaitTasks s'
    let s3 := checkErrors s2
    let s4 := cleanupTasks s3
    match s4.storedError with
    | some e => (.runError e, s4)
    | none => (.ok, s4)

/-! Predicates over task handles and states used by the theorems. -/

/-- A task handle that has completed (a nil handle counts as done: there
is nothing left running). -/
def taskDone : Option TaskState → Bool
  | none => true
  | some t => t.isDone

/-- All three background task handles report done. -/
def tasksAllDone (s : RunState) : Bool :=
  taskDone s.runImplTask && taskDone s.inputGuardrailsTask && taskDone s.outputGuardrailsTask

/-- A task whose eventual outcome is success (or no task at all). -/
def taskNeverFails : Option TaskState → Bool
  | none => true
  | some t => t.errorResult.isNone

/-- All three background tasks eventually succeed. -/
def tasksNeverFail (s : RunState) : Bool :=
  taskNeverFails s.runImplTask && taskNeverFails s.inputGuardrailsTask
    && taskNeverFails s.outputGuardrailsTask

/-- A task whose poll stores no error right now: it is absent, still
running, or done without error. -/
def taskNotFailedNow : Option TaskState → Bool
  | none => true
  | some t => !(t.isDone && t.errorResult.isSome)

/-- No task poll stores an error at this moment. -/
def tasksNotFailedNow (s : RunState) : Bool :=
  taskNotFailedNow s.runImplTask && taskNotFailedNow s.inputGuardrailsTask
    && taskNotFailedNow s.outputGuardrailsTask

/-- No queued guardrail result has a triggered tripwire. -/
def queueUntripped (q : List InputGuardrailResult) : Bool :=
  q.all (fun g => !g.output.tripwireTriggered)

/-! Frame and computation lemmas. -/

theorem createErrorDetails_checkErrors (s : RunState) :
    createErrorDetails (checkErrors s) = createErrorDetails s := rfl

theorem createErrorDetails_awaitTasks (s : RunState) :
    createErrorDetails (awaitTasks s) = createErrorDetails s := rfl

theorem storedError_cleanupTasks (s : RunState) :
    (cleanupTasks s).storedError = s.storedError := rfl

theorem drainGuardrailQueue_untripped (d : RunErrorDetails) (st : Option RunError)
    (q : List InputGuardrailResult) (h : queueUntripped q = true) :
    drainGuardrailQueue d st q = st := by
  induction q generalizing st with
  | nil => rfl
  | cons g rest ih =>
    rw [queueUntripped, List.all_cons, Bool.and_eq_true] at h
    have hg : g.output.tripwireTriggered = false := by simpa using h.1
    rw [drainGuardrailQueue, hg]
    simpa using ih st h.2

theorem drainGuardrailQueue_isSome (d : RunErrorDetails) (st : Option RunError)
    (q : List InputGuardrailResult) (h : st.isSome = true) :
    (drainGuardrailQueue d st q).isSome = true := by
  induction q generalizing st with
  | nil => exact h
  | cons g rest ih =>
    rw [drainGuardrailQueue]
    cases hg : g.output.tripwireTriggered with
    | true => exact ih _ (by simp [hg])
    | false => simpa [hg] using ih _ h

theorem pollTaskError_notFailedNow (k : TaskKind) (d : RunErrorDetails)
    (st : Option RunError) (t? : Option TaskState) (h : taskNotFailedNow t? = true) :
    pollTaskError k d st t? = (st, t?) := by
  cases t? with
  | none => rfl
  | some t =>
    rw [taskNotFailedNow] at h
    cases hd : t.isDone with
    | false => simp [pollTaskError, hd]
    | true =>
      cases he : t.errorResult with
      | none => simp [pollTaskError, hd, he]
      | some e => rw [hd, he] at h; simp at h

theorem taskNeverFails_notFailedNow (t? : Option TaskState)
    (h : taskNeverFails t? = true) : taskNotFailedNow t? = true := by
  cases t? with
  | none => rfl
  | some t =>
    rw [taskNeverFails] at h
    have : t.errorResult = none := by simpa [Option.isNone_iff_eq_none] using h
    simp [taskNotFailedNow, this]

/-- When no error condition holds at poll time, checkErrors only drains
the (untripped) guardrail queue. -/
theorem checkErrors_clean (s : RunState)
    (hturn : s.currentTurn ≤ s.maxTurns)
    (hq : queueUntripped s.inputGuardrailQueue = true)
    (ht : tasksNotFailedNow s = true) :
    checkErrors s = { s with inputGuardrailQueue := [] } := by
  rw [tasksNotFailedNow, Bool.and_eq_true, Bool.and_eq_true] at ht
  obtain ⟨⟨h1, h2⟩, h3⟩ := ht
  rw [checkErrors]
  simp only [Nat.not_lt.mpr hturn, if_false, drainGuardrailQueue_untripped _ _ _ hq,
    pollTaskError_notFailedNow _ _ _ _ h1,
    pollTaskError_notFailedNow _ _ _ _ h2,
    pollTaskError_notFailedNow _ _ _ _ h3]

/-- When the turn limit is exceeded and nothing later in the polling
order stores, checkErrors stores the dedicated max-turns error carrying
the current snapshot. -/
theorem checkErrors_maxTurns (s : RunState)
    (hturn : s.maxTurns < s.currentTurn)
    (hq : queueUntripped s.inputGuardrailQueue = true)
    (ht : tasksNotFailedNow s = true) :
    checkErrors s =
      { s with
        storedError := some (.maxTurnsExceeded s.maxTurns (some (createErrorDetails s)))
        inputGuardrailQueue := [] } := by
  rw [tasksNotFailedNow, Bool.and_eq_true, Bool.and_eq_true] at ht
  obtain ⟨⟨h1, h2⟩, h3⟩ := ht
  rw [checkErrors]
  simp only [hturn, if_true, drainGuardrailQueue_untripped _ _ _ hq,
    pollTaskError_notFailedNow _ _ _ _ h1,
    pollTaskError_notFailedNow _ _ _ _ h2,
    pollTaskError_notFailedNow _ _ _ _ h3]

/-- When the turn limit is exceeded and the tasks store no error, the
storedError slot holds some error after checkErrors, whatever the
guardrail queue contains. -/
theorem checkErrors_overLimit_isSome (s : RunState)
    (hturn : s.maxTurns < s.currentTurn)
    (ht : tasksNotFailedNow s = true) :
    (checkErrors s).storedError.isSome = true := by
  rw [tasksNotFailedNow, Bool.and_eq_true, Bool.and_eq_true] at ht
  obtain ⟨⟨h1, h2⟩, h3⟩ := ht
  rw [checkErrors]
  simp only [hturn, if_true,
    pollTaskError_notFailedNow _ _ _ _ h1,
    pollTaskError_notFailedNow _ _ _ _ h2,
    pollTaskError_notFailedNow _ _ _ _ h3]
  exact drainGuardrailQueue_isSome _ _ _ (by simp)

theorem taskNeverFails_await (t? : Option TaskState) (h : taskNeverFails t? = true) :
    taskNotFailedNow (t?.map (fun t => { t with isDone := true })) = true := by
  cases t? with
  | none => rfl
  | some t =>
    rw [taskNeverFails] at h
    have : t.errorResult = none := by simpa [Option.isNone_iff_eq_none] using h
    simp [taskNotFailedNow, this]

theorem tasksNotFailedNow_awaitTasks (s : RunState)
    (h : tasksNeverFail s = true) : tasksNotFailedNow (awaitTasks s) = true := by
  rw [tasksNeverFail, Bool.and_eq_true, Bool.and_eq_true] at h
  obtain ⟨⟨h1, h2⟩, h3⟩ := h
  rw [tasksNotFailedNow, awaitTasks]
  simp only [Bool.and_eq_true]
  exact ⟨⟨taskNeverFails_await _ h1, taskNeverFails_await _ h2⟩, taskNeverFails_await _ h3⟩

theorem tasksNotFailedNow_of_neverFail (s : RunState)
    (h : tasksNeverFail s = true) : tasksNotFailedNow s = true := by
  rw [tasksNeverFail, Bool.and_eq_true, Bool.and_eq_true] at h
  obtain ⟨⟨h1, h2⟩, h3⟩ := h
  rw [tasksNotFailedNow, Bool.and_eq_true, Bool.and_eq_true]
  exact ⟨⟨taskNeverFails_notFailedNow _ h1, taskNeverFails_notFailedNow _ h2⟩,
    taskNeverFails_notFailedNow _ h3⟩

theorem tasksNeverFail_checkErrors (s : RunState)
    (h : tasksNeverFail s = true) : tasksNeverFail (checkErrors s) = true := by
  have ht := tasksNotFailedNow_of_neverFail s h
  rw [tasksNotFailedNow, Bool.and_eq_true, Bool.and_eq_true] at ht
  obtain ⟨⟨h1, h2⟩, h3⟩ := ht
  rw [checkErrors]
  simp only [pollTaskError_notFailedNow _ _ _ _ h1,
    pollTaskError_notFailedNow _ _ _ _ h2,
    pollTaskError_notFailedNow _ _ _ _ h3]
  exact h

theorem taskDone_cancelIfRunning (t? : Option TaskState) :
    taskDone (cancelIfRunning t?) = taskDone t? := by
  cases t? with
  | none => rfl
  | some t =>
    rw [cancelIfRunning]
    cases hd : t.isDone with
    | true => simp [taskDone, hd]
    | false => simp [taskDone, hd]

theorem pollTaskError_preserves_done (k : TaskKind) (d : RunErrorDetails)
    (st : Option RunError) (t? : Option TaskState) :
    taskDone (pollTaskError k d st t?).2 = taskDone t? := by
  cases t? with
  | none => rfl
  | some t =>
    rw [pollTaskError]
    cases hd : t.isDone with
    | false => simp [taskDone, hd]
    | true =>
      cases he : t.errorResult with
      | none => simp [taskDone, hd]
      | some e => simp [taskDone, hd]

theorem taskDone_markDone (t? : Option TaskState) :
    taskDone (t?.map (fun t => { t with isDone := true })) = true := by
  cases t? with
  | none => rfl
  | some t => rfl

/-- After the await / check / cleanup epilogue of StreamEvents, every
task handle reports done. -/
theorem tasksAllDone_epilogue (x : RunState) :
    tasksAllDone (cleanupTasks (checkErrors (awaitTasks x))) = true := by
  have r1 : taskDone (cleanupTasks (checkErrors (awaitTasks x))).runImplTask = true := by
    rw [show (cleanupTasks (checkErrors (awaitTasks x))).runImplTask
        = cancelIfRunning (checkErrors (awaitTasks x)).runImplTask from rfl,
      taskDone_cancelIfRunning,
      show taskDone (checkErrors (awaitTasks x)).runImplTask
        = taskDone (awaitTasks x).runImplTask from pollTaskError_preserves_done _ _ _ _,
      show (awaitTasks x).runImplTask = x.runImplTask.map (fun t => { t with isDone := true }) from rfl,
      taskDone_markDone]
  have r2 : taskDone (cleanupTasks (checkErrors (awaitTasks x))).inputGuardrailsTask = true := by
    rw [show (cleanupTasks (checkErrors (awaitTasks x))).inputGuardrailsTask
        = cancelIfRunning (checkErrors (awaitTasks x)).inputGuardrailsTask from rfl,
      taskDone_cancelIfRunning,
      show taskDone (checkErrors (awaitTasks x)).inputGuardrailsTask
        = taskDone (awaitTasks x).inputGuardrailsTask from pollTaskError_preserves_done _ _ _ _,
      show (awaitTasks x).inputGuardrailsTask
        = x.inputGuardrailsTask.map (fun t => { t with isDone := true }) from rfl,
      taskDone_markDone]
  have r3 : taskDone (cleanupTasks (checkErrors (awaitTasks x))).outputGuardrailsTask = true := by
    rw [show (cleanupTasks (checkErrors (awaitTasks x))).outputGuardrailsTask
        = cancelIfRunning (checkErrors (awaitTasks x)).outputGuardrailsTask from rfl,
      taskDone_cancelIfRunning,
      show taskDone (checkErrors (awaitTasks x)).outputGuardrailsTask
        = taskDone (awaitTasks x).outputGuardrailsTask from pollTaskError_preserves_done _ _ _ _,
      show (awaitTasks x).outputGuardrailsTask
        = x.outputGuardrailsTask.map (fun t => { t with isDone := true }) from rfl,
      taskDone_markDone]
  rw [tasksAllDone, r1, r2, r3]
  rfl

/-- In a state past the turn limit with error-free tasks and an empty
event queue, StreamEvents returns the max-turns error built from the
entry snapshot: the first loop poll stores some error and breaks, and
the post-await poll re-detects the still-true turn-limit condition on
the drained state, storing the max-turns error last. -/
theorem streamEvents_over_limit (s : RunState) (fn : StreamEvent → Option String)
    (hturn : s.maxTurns < s.currentTurn)
    (ht : tasksNeverFail s = true)
    (hq : s.eventQueue = []) :
    (streamEvents s fn).1 =
      .runError (.maxTurnsExceeded s.maxTurns (some (createErrorDetails s))) := by
  have htn : tasksNotFailedNow s = true := tasksNotFailedNow_of_neverFail s ht
  have hsome := checkErrors_overLimit_isSome s hturn htn
  have hnf2 : tasksNeverFail ({ checkErrors s with isComplete := true } : RunState) = true :=
    tasksNeverFail_checkErrors s ht
  have ht2 : tasksNotFailedNow
      (awaitTasks ({ checkErrors s with isComplete := true } : RunState)) = true :=
    tasksNotFailedNow_awaitTasks _ hnf2
  have hmax2 := checkErrors_maxTurns
    (awaitTasks ({ checkErrors s with isComplete := true } : RunState))
    (by exact hturn) (by rfl) ht2
  rw [streamEvents, hq]
  simp only [List.length_nil, Nat.zero_add, streamLoop, hsome, if_true]
  simp only [hmax2]
  rfl

/-- One iteration of the consumption loop in a state with no stored
error and no error condition: the poll only drains the guardrail queue,
and the head event is dequeued and dispatched. -/
theorem streamLoop_step_clean (fn : StreamEvent → Option String) (fuel : Nat)
    (s : RunState) (item : StreamEvent) (rest : List StreamEvent)
    (hst : s.storedError = none)
    (hturn : s.currentTurn ≤ s.maxTurns)
    (hq : queueUntripped s.inputGuardrailQueue = true)
    (ht : tasksNotFailedNow s = true)
    (hqueue : s.eventQueue = item :: rest) :
    streamLoop fn (fuel + 1) s =
      match item with
      | .queueCompleteSentinel =>
        (.brk, checkErrors { s with inputGuardrailQueue := [], eventQueue := rest })
      | ev =>
        match fn ev with
        | some e => (.visitor e, { s with inputGuardrailQueue := [], eventQueue := rest })
        | none => streamLoop fn fuel { s with inputGuardrailQueue := [], eventQueue := rest } := by
  rw [streamLoop]
  simp only [checkErrors_clean s hturn hq ht, hst, hqueue, Option.isSome_none,
    List.isEmpty_cons, Bool.and_false, Bool.false_eq_true, if_false]
  cases item <;> rfl

/-- If the visitor rejects the first sentinel-free prefix event it is
given, the loop returns the visitor's error with the stored-error slot
untouched. The loop preserves the cleanliness hypotheses: each poll
only drains the already-untripped guardrail queue. -/
theorem streamLoop_visitor_first_error (fn : StreamEvent → Option String)
    (pre : List StreamEvent) :
    ∀ (s : RunState) (fuel : Nat) (ev : StreamEvent) (rest : List StreamEvent) (e : String),
      s.storedError = none →
      s.currentTurn ≤ s.maxTurns →
      queueUntripped s.inputGuardrailQueue = true →
      tasksNotFailedNow s = true →
      s.eventQueue = pre ++ ev :: rest →
      (∀ x ∈ pre, x ≠ StreamEvent.queueCompleteSentinel ∧ fn x = none) →
      ev ≠ StreamEvent.queueCompleteSentinel →
      fn ev = some e →
      pre.length + 1 ≤ fuel →
      streamLoop fn fuel s =
        (.visitor e, { s with inputGuardrailQueue := [], eventQueue := rest }) := by
  induction pre with
  | nil =>
    intro s fuel ev rest e hst hturn hq ht hqueue _ hev hfn hfuel
    obtain ⟨m, rfl⟩ : ∃ m, fuel = m + 1 := ⟨fuel - 1, by omega⟩
    rw [streamLoop_step_clean fn m s ev rest hst hturn hq ht (by simpa using hqueue)]
    cases ev with
    | queueCompleteSentinel => exact absurd rfl hev
    | rawResponsesEvent p => simp only [hfn]
    | agentUpdatedEvent a => simp only [hfn]
    | runItemEvent it => simp only [hfn]
  | cons p pre ih =>
    intro s fuel ev rest e hst hturn hq ht hqueue hpre hev hfn hfuel
    obtain ⟨m, rfl⟩ : ∃ m, fuel = m + 1 := ⟨fuel - 1, by omega⟩
    rw [streamLoop_step_clean fn m s p (pre ++ ev :: rest) hst hturn hq ht
      (by simpa using hqueue)]
    have hp := hpre p (by simp)
    have step : streamLoop fn m
        ({ s with inputGuardrailQueue := [], eventQueue := pre ++ ev :: rest }) =
        (.visitor e, { s with inputGuardrailQueue := [], eventQueue := rest }) := by
      have := ih ({ s with inputGuardrailQueue := [], eventQueue := pre ++ ev :: rest })
        m ev rest e hst hturn rfl ht rfl
        (fun x hx => hpre x (by simp [hx])) hev hfn (by simpa using Nat.lt_succ_iff.mp hfuel)
      simpa using this
    cases p with
    | queueCompleteSentinel => exact absurd rfl hp.1
    | rawResponsesEvent q => simp only [hp.2]; exact step
    | agentUpdatedEvent a => simp only [hp.2]; exact step
    | runItemEvent it => simp only [hp.2]; exact step

/-- cancel is idempotent on the model state. -/
theorem cancel_cancel_eq (s : RunState) : cancel (cancel s) = cancel s := by
  cases h1 : s.runImplTask <;> cases h2 : s.inputGuardrailsTask <;>
    cases h3 : s.outputGuardrailsTask <;>
      simp [cancel, cleanupTasks, awaitTasks, cancelIfRunning, h1, h2, h3]

theorem streamEvents_brk (s : RunState) (fn : StreamEvent → Option String) (s' : RunState)
    (hl : streamLoop fn (s.eventQueue.length + 1) s = (.brk, s')) :
    streamEvents s fn =
      (match (cleanupTasks (checkErrors (awaitTasks s'))).storedError with
      | some e => (.runError e, cleanupTasks (checkErrors (awaitTasks s')))
      | none => (.ok, cleanupTasks (checkErrors (awaitTasks s')))) := by
  rw [streamEvents, hl]

theorem streamEvents_visitor_result (s : RunState) (fn : StreamEvent → Option String)
    (e : String) (s' : RunState)
    (hl : streamLoop fn (s.eventQueue.length + 1) s = (.visitor e, s')) :
    streamEvents s fn = (.visitorError e, s') := by
  rw [streamEvents, hl]

theorem streamEvents_blocked_result (s : RunState) (fn : StreamEvent → Option String)
    (s' : RunState)
    (hl : streamLoop fn (s.eventQueue.length + 1) s = (.blockedStep, s')) :
    streamEvents s fn = (.blocked, s') := by
  rw [streamEvents, hl]

theorem pollTaskError_done_error (k : TaskKind) (d : RunErrorDetails)
    (st : Option RunError) (t : TaskState) (e : TaskError)
    (hdone : t.isDone = true) (herr : t.errorResult = some e) :
    pollTaskError k d st (some t) =
      (some (.taskError k (attachRunData d e)),
        some { t with errorResult := some (attachRunData d e) }) := by
  rw [pollTaskError]
  simp [hdone, herr]

theorem attachRunData_attachRunData (d d' : RunErrorDetails) (e : TaskError) :
    attachRunData d' (attachRunData d e) = attachRunData d e := by
  cases e with
  | agents rd msg => cases rd <;> rfl
  | plain msg => rfl

/-! Concrete scenario values used by counterexamples and witnesses. -/

/-- A concrete agent. -/
def agentA : Agent := ⟨"triage"⟩

/-- A concrete guardrail verdict with a triggered tripwire. -/
def trippedResult : InputGuardrailResult := ⟨⟨true, "policy violation"⟩⟩

/-- A concrete streaming state in which the turn counter exceeds max
turns while a triggered guardrail verdict waits in the queue. -/
def bothConditionsState : RunState :=
  { contextToken := 0
    input := .text "hello"
    newItems := [.messageOutputItem (some agentA) "msg" "message_output_item"]
    rawResponses := [⟨"resp-1"⟩, ⟨"resp-2"⟩]
    inputGuardrailResults := []
    outputGuardrailResults := []
    currentAgent := some agentA
    currentTurn := 2
    maxTurns := 1
    isComplete := false
    eventQueue := []
    inputGuardrailQueue := [trippedResult]
    runImplTask := none
    inputGuardrailsTask := none
    outputGuardrailsTask := none
    storedError := none }

/-- The same state past the turn limit, with no queued guardrail result. -/
def overLimitState : RunState := { bothConditionsState with inputGuardrailQueue := [] }

/-- A task handle that has not completed yet. -/
def pendingTask : TaskState := ⟨false, none, false⟩

/-- A healthy mid-run state with one pending event and a still-running
background task. -/
def visitorSceneState : RunState :=
  { bothConditionsState with
    currentTurn := 0
    maxTurns := 10
    inputGuardrailQueue := []
    eventQueue := [.agentUpdatedEvent (some agentA)]
    runImplTask := some pendingTask }

/-- The same healthy state whose queue holds only the completion sentinel. -/
def sentinelOnlyState : RunState :=
  { visitorSceneState with eventQueue := [.queueCompleteSentinel] }

/-- A completed task that reported an un-annotated AgentsError. -/
def failedAgentsTask : TaskState := ⟨true, some (.agents none "model call failed"), false⟩

/-- A state whose run-execution task has failed. -/
def taskFailureState : RunState :=
  { visitorSceneState with eventQueue := [], runImplTask := some failedAgentsTask }

/-- A concrete terminal result for the round-trip witness. -/
def sampleRunResult : RunResult :=
  { input := .text "hello"
    newItems := [.messageOutputItem (some agentA) "m1" "message_output_item",
      .toolCallItem (some agentA) (.responseFunctionToolCall "c1") "tool_call_item",
      .toolCallOutputItem (some agentA)
        (.responseInputItemFunctionCallOutputParam "o1") "ok" "tool_call_output_item"]
    rawResponses := [⟨"resp-1"⟩]
    finalOutput := "done"
    inputGuardrailResults := []
    outputGuardrailResults := []
    lastAgent := some agentA }

theorem runItemsToInputItems_all_some (items : List RunItem)
    (h : ∀ it ∈ items, (RunItem.toInputItem it).isSome = true) :
    runItemsToInputItems items = some (items.filterMap RunItem.toInputItem) := by
  induction items with
  | nil => rfl
  | cons it rest ih =>
    obtain ⟨x, hx⟩ := Option.isSome_iff_exists.mp (h it (by simp))
    rw [runItemsToInputItems, hx, ih (fun i hi => h i (by simp [hi])),
      List.filterMap_cons, hx]

/-! Claim theorems. -/

/-- Claim C1, counterexample: in a state where both the turn-limit
condition and a queued triggered guardrail verdict hold, the storedError
slot after checkErrors holds the tripwire error, not the turn-limit
error: the guardrail poll replaced the turn-limit error stored moments
earlier, so polls do overwrite an already-present stored error. -/
theorem c1_first_error_wins_counterexample :
    (checkErrors bothConditionsState).storedError
        = some (.inputGuardrailTripwire trippedResult
            (some (createErrorDetails bothConditionsState)))
    ∧ (checkErrors bothConditionsState).storedError
        ≠ some (.maxTurnsExceeded bothConditionsState.maxTurns
            (some (createErrorDetails bothConditionsState))) := by
  exact ⟨rfl, by decide⟩

/-- Claim C1, amended: the storedError slot is last-write-wins, so after
a checkErrors poll in which both conditions hold, the slot holds the
tripwire error (the later condition in polling order); the caller of
StreamEvents nevertheless ultimately observes the turn-limit error,
because the final post-await poll re-detects the still-true turn-limit
condition on the drained state and overwrites the slot once more. -/
theorem c1_last_write_wins (s : RunState) (g : InputGuardrailResult)
    (fn : StreamEvent → Option String)
    (hturn : s.maxTurns < s.currentTurn)
    (hq : s.inputGuardrailQueue = [g])
    (hg : g.output.tripwireTriggered = true)
    (ht : tasksNeverFail s = true)
    (hev : s.eventQueue = []) :
    (checkErrors s).storedError
        = some (.inputGuardrailTripwire g (some (createErrorDetails s)))
    ∧ (streamEvents s fn).1
        = .runError (.maxTurnsExceeded s.maxTurns (some (createErrorDetails s))) := by
  refine ⟨?_, streamEvents_over_limit s fn hturn ht hev⟩
  have ht' := tasksNotFailedNow_of_neverFail s ht
  rw [tasksNotFailedNow, Bool.and_eq_true, Bool.and_eq_true] at ht'
  obtain ⟨⟨h1, h2⟩, h3⟩ := ht'
  rw [checkErrors]
  simp only [hturn, if_true, hq, drainGuardrailQueue, hg,
    pollTaskError_notFailedNow _ _ _ _ h1,
    pollTaskError_notFailedNow _ _ _ _ h2,
    pollTaskError_notFailedNow _ _ _ _ h3]

/-- Witness for c1_last_write_wins at the concrete both-conditions
state. -/
theorem c1_last_write_wins_witness :
    (checkErrors bothConditionsState).storedError
        = some (.inputGuardrailTripwire trippedResult
            (some (createErrorDetails bothConditionsState)))
    ∧ (streamEvents bothConditionsState (fun _ => none)).1
        = .runError (.maxTurnsExceeded bothConditionsState.maxTurns
            (some (createErrorDetails bothConditionsState))) :=
  c1_last_write_wins bothConditionsState trippedResult (fun _ => none)
    (by decide) rfl rfl rfl rfl

/-- Claim C2, counterexample: converting a tool-call run item whose raw
item is a file-search call reaches the panicking default branch, so the
conversion is not total over every ToolCallItemType sub-variant. -/
theorem c2_conversion_total_counterexample :
    RunItem.toInputItem
      (.toolCallItem none (.responseFileSearchToolCall "fs-call") "tool_call_item") = none := rfl

/-- Claim C2, amended: ToInputItem is total on every RunItem variant
except tool-call items whose raw kind is file-search, web-search,
code-interpreter, image-generation or MCP call; those reach the
deliberate panic of the tool-call dispatch. Every ToolCallOutputRawItem
sub-variant converts. -/
theorem c2_conversion_total_except_panics (item : RunItem)
    (h : item.hitsPanickingBranch = false) :
    (RunItem.toInputItem item).isSome = true := by
  cases item with
  | toolCallItem a raw ty =>
    cases raw <;>
      simp_all [RunItem.hitsPanickingBranch, ToolCallItemType.isUnhandled,
        RunItem.toInputItem, TResponseInputItemFromToolCallItemType]
  | messageOutputItem a raw ty => rfl
  | handoffCallItem a raw ty => rfl
  | handoffOutputItem a raw sa ta ty => rfl
  | toolCallOutputItem a raw o ty => rfl
  | reasoningItem a raw ty => rfl
  | mcpListToolsItem a raw ty => rfl
  | mcpApprovalRequestItem a raw ty => rfl
  | mcpApprovalResponseItem a raw ty => rfl

/-- Witness for c2_conversion_total_except_panics at a function tool
call. -/
theorem c2_conversion_total_except_panics_witness :
    (RunItem.toInputItem
      (.toolCallItem (some agentA) (.responseFunctionToolCall "call-1") "tool_call_item")).isSome
      = true :=
  c2_conversion_total_except_panics
    (.toolCallItem (some agentA) (.responseFunctionToolCall "call-1") "tool_call_item") rfl

/-- Claim C3, counterexample: when the visitor function rejects an
event, StreamEvents returns the visitor's error from inside the loop
without awaiting the background tasks: the run-execution task handle
still reports not-done after the return. -/
theorem c3_all_tasks_awaited_counterexample :
    (streamEvents visitorSceneState (fun _ => some "consumer failure")).1
        = .visitorError "consumer failure"
    ∧ tasksAllDone (streamEvents visitorSceneState (fun _ => some "consumer failure")).2
        = false := ⟨rfl, rfl⟩

/-- Claim C3, amended: on the normal sentinel-termination and
stored-error termination return paths StreamEvents awaits all three
background tasks before returning, but the visitor-error return path
returns immediately from inside the loop without awaiting them. -/
theorem c3_tasks_awaited_on_break_paths (s : RunState) (fn : StreamEvent → Option String)
    (h : (streamEvents s fn).1 = .ok ∨ ∃ e, (streamEvents s fn).1 = .runError e) :
    tasksAllDone (streamEvents s fn).2 = true := by
  rcases hl : streamLoop fn (s.eventQueue.length + 1) s with ⟨step, s'⟩
  cases step with
  | brk =>
    rw [streamEvents_brk s fn s' hl]
    cases hse : (cleanupTasks (checkErrors (awaitTasks s'))).storedError with
    | some e => simp only [hse]; exact tasksAllDone_epilogue s'
    | none => simp only [hse]; exact tasksAllDone_epilogue s'
  | visitor e =>
    rw [streamEvents_visitor_result s fn e s' hl] at h
    rcases h with h | ⟨e', h⟩ <;> simp at h
  | blockedStep =>
    rw [streamEvents_blocked_result s fn s' hl] at h
    rcases h with h | ⟨e', h⟩ <;> simp at h

/-- Witness for c3_tasks_awaited_on_break_paths at the sentinel-only
state, whose stream ends normally. -/
theorem c3_tasks_awaited_on_break_paths_witness :
    tasksAllDone (streamEvents sentinelOnlyState (fun _ => none)).2 = true :=
  c3_tasks_awaited_on_break_paths sentinelOnlyState (fun _ => none) (Or.inl rfl)

/-- Claim C4: ToInputList returns exactly the normalized original input
concatenated with the per-item normalized form of each new item, in
order, whenever every new item converts; and as a pure function of the
result fields two calls with the same arguments agree. -/
theorem c4_to_input_list_round_trip (r : RunResult)
    (h : ∀ it ∈ r.newItems, (RunItem.toInputItem it).isSome = true) :
    RunResult.ToInputList r
        = some (inputToNewInputList r.input ++ r.newItems.filterMap RunItem.toInputItem)
    ∧ RunResult.ToInputList r = RunResult.ToInputList r := by
  refine ⟨?_, rfl⟩
  rw [RunResult.ToInputList, toInputList, runItemsToInputItems_all_some _ h]
  rfl

/-- Witness for c4_to_input_list_round_trip at a concrete result. -/
theorem c4_to_input_list_round_trip_witness :
    RunResult.ToInputList sampleRunResult
        = some (inputToNewInputList sampleRunResult.input
            ++ sampleRunResult.newItems.filterMap RunItem.toInputItem)
    ∧ RunResult.ToInputList sampleRunResult = RunResult.ToInputList sampleRunResult :=
  c4_to_input_list_round_trip sampleRunResult (by decide)

/-- Claim C5: with no competing error source, checkErrors stores a
max-turns error exactly when the turn counter strictly exceeds the
configured max; the error's snapshot has LastAgent equal to the current
agent and carries the accumulated input, items, responses and guardrail
results; and StreamEvents then returns this error. -/
theorem c5_max_turns_error_iff (s : RunState) (fn : StreamEvent → Option String)
    (hst : s.storedError = none)
    (hq : queueUntripped s.inputGuardrailQueue = true)
    (ht : tasksNeverFail s = true) :
    (((checkErrors s).storedError
        = some (.maxTurnsExceeded s.maxTurns (some (createErrorDetails s))))
      ↔ s.maxTurns < s.currentTurn)
    ∧ (createErrorDetails s).lastAgent = s.currentAgent
    ∧ (createErrorDetails s).input = s.input
    ∧ (createErrorDetails s).newItems = s.newItems
    ∧ (createErrorDetails s).rawResponses = s.rawResponses
    ∧ (createErrorDetails s).inputGuardrailResults = s.inputGuardrailResults
    ∧ (createErrorDetails s).outputGuardrailResults = s.outputGuardrailResults
    ∧ (s.maxTurns < s.currentTurn → s.eventQueue = [] →
        (streamEvents s fn).1
          = .runError (.maxTurnsExceeded s.maxTurns (some (createErrorDetails s)))) := by
  have htn := tasksNotFailedNow_of_neverFail s ht
  refine ⟨⟨?_, ?_⟩, rfl, rfl, rfl, rfl, rfl, rfl,
    fun hlt hev => streamEvents_over_limit s fn hlt ht hev⟩
  · intro hstored
    by_contra hnot
    rw [checkErrors_clean s (Nat.not_lt.mp hnot) hq htn] at hstored
    rw [show ({ s with inputGuardrailQueue := [] } : RunState).storedError
        = s.storedError from rfl, hst] at hstored
    exact Option.noConfusion hstored
  · intro hlt
    rw [checkErrors_maxTurns s hlt hq htn]

/-- Witness for c5_max_turns_error_iff at the concrete over-limit
state. -/
theorem c5_max_turns_error_iff_witness :
    (((checkErrors overLimitState).storedError
        = some (.maxTurnsExceeded overLimitState.maxTurns
            (some (createErrorDetails overLimitState))))
      ↔ overLimitState.maxTurns < overLimitState.currentTurn)
    ∧ (createErrorDetails overLimitState).lastAgent = overLimitState.currentAgent
    ∧ (createErrorDetails overLimitState).input = overLimitState.input
    ∧ (createErrorDetails overLimitState).newItems = overLimitState.newItems
    ∧ (createErrorDetails overLimitState).rawResponses = overLimitState.rawResponses
    ∧ (createErrorDetails overLimitState).inputGuardrailResults
        = overLimitState.inputGuardrailResults
    ∧ (createErrorDetails overLimitState).outputGuardrailResults
        = overLimitState.outputGuardrailResults
    ∧ (overLimitState.maxTurns < overLimitState.currentTurn → overLimitState.eventQueue = [] →
        (streamEvents overLimitState (fun _ => none)).1
          = .runError (.maxTurnsExceeded overLimitState.maxTurns
              (some (createErrorDetails overLimitState)))) :=
  c5_max_turns_error_iff overLimitState (fun _ => none) rfl rfl rfl

/-- Claim C6: if the visitor rejects the first event it is handed after
a sentinel-free prefix it accepts, StreamEvents returns that error
immediately and the stored-error slot is left unmodified - the
visitor's error is never recorded as the run's terminal stored error. -/
theorem c6_visitor_error_not_stored (s : RunState) (fn : StreamEvent → Option String)
    (pre : List StreamEvent) (ev : StreamEvent) (rest : List StreamEvent) (e : String)
    (hst : s.storedError = none)
    (hturn : s.currentTurn ≤ s.maxTurns)
    (hq : queueUntripped s.inputGuardrailQueue = true)
    (ht : tasksNotFailedNow s = true)
    (hqueue : s.eventQueue = pre ++ ev :: rest)
    (hpre : ∀ x ∈ pre, x ≠ StreamEvent.queueCompleteSentinel ∧ fn x = none)
    (hev : ev ≠ StreamEvent.queueCompleteSentinel)
    (hfn : fn ev = some e) :
    (streamEvents s fn).1 = .visitorError e
    ∧ (streamEvents s fn).2.storedError = s.storedError
    ∧ (streamEvents s fn).2.storedError = none := by
  have hfuel : pre.length + 1 ≤ s.eventQueue.length + 1 := by
    rw [hqueue]; simp
  have hloop := streamLoop_visitor_first_error fn pre s (s.eventQueue.length + 1) ev rest e
    hst hturn hq ht hqueue hpre hev hfn hfuel
  rw [streamEvents_visitor_result s fn e _ hloop]
  exact ⟨rfl, rfl, hst⟩

/-- Witness for c6_visitor_error_not_stored at the concrete
one-pending-event state. -/
theorem c6_visitor_error_not_stored_witness :
    (streamEvents visitorSceneState (fun _ => some "consumer failure")).1
        = .visitorError "consumer failure"
    ∧ (streamEvents visitorSceneState (fun _ => some "consumer failure")).2.storedError
        = visitorSceneState.storedError
    ∧ (streamEvents visitorSceneState (fun _ => some "consumer failure")).2.storedError
        = none :=
  c6_visitor_error_not_stored visitorSceneState (fun _ => some "consumer failure")
    [] (.agentUpdatedEvent (some agentA)) [] "consumer failure"
    rfl (by decide) rfl rfl rfl (by simp) (by decide) rfl

/-- Claim C7: when the run-execution task completes with an error, the
checkErrors poll attaches the current snapshot to the error's RunData
exactly when RunData is nil, stores the wrapped error, leaves an
already-annotated error unchanged, and re-annotation is a no-op. -/
theorem c7_run_data_attached_once (s : RunState) (t : TaskState) (e : TaskError)
    (hrt : s.runImplTask = some t)
    (hdone : t.isDone = true)
    (herr : t.errorResult = some e)
    (h2 : taskNotFailedNow s.inputGuardrailsTask = true)
    (h3 : taskNotFailedNow s.outputGuardrailsTask = true) :
    (checkErrors s).runImplTask
        = some { t with errorResult := some (attachRunData (createErrorDetails s) e) }
    ∧ (checkErrors s).storedError
        = some (.taskError .runImpl (attachRunData (createErrorDetails s) e))
    ∧ (∀ d msg, e = .agents (some d) msg → attachRunData (createErrorDetails s) e = e)
    ∧ (∀ d' : RunErrorDetails,
        attachRunData d' (attachRunData (createErrorDetails s) e)
          = attachRunData (createErrorDetails s) e) := by
  refine ⟨?_, ?_, ?_, fun d' => attachRunData_attachRunData _ d' e⟩
  · rw [checkErrors]
    simp only [hrt, pollTaskError_done_error _ _ _ _ _ hdone herr,
      pollTaskError_notFailedNow _ _ _ _ h2, pollTaskError_notFailedNow _ _ _ _ h3]
  · rw [checkErrors]
    simp only [hrt, pollTaskError_done_error _ _ _ _ _ hdone herr,
      pollTaskError_notFailedNow _ _ _ _ h2, pollTaskError_notFailedNow _ _ _ _ h3]
  · intro d msg he
    rw [he]
    rfl

/-- Witness for c7_run_data_attached_once at the concrete failed-task
state. -/
theorem c7_run_data_attached_once_witness :
    (checkErrors taskFailureState).runImplTask
        = some { failedAgentsTask with
            errorResult := some (attachRunData (createErrorDetails taskFailureState)
              (.agents none "model call failed")) }
    ∧ (checkErrors taskFailureState).storedError
        = some (.taskError .runImpl (attachRunData (createErrorDetails taskFailureState)
            (.agents none "model call failed")))
    ∧ (∀ d msg, (TaskError.agents none "model call failed") = .agents (some d) msg →
        attachRunData (createErrorDetails taskFailureState)
          (.agents none "model call failed") = .agents none "model call failed")
    ∧ (∀ d' : RunErrorDetails,
        attachRunData d' (attachRunData (createErrorDetails taskFailureState)
            (.agents none "model call failed"))
          = attachRunData (createErrorDetails taskFailureState)
              (.agents none "model call failed")) :=
  c7_run_data_attached_once taskFailureState failedAgentsTask
    (.agents none "model call failed") rfl rfl rfl rfl rfl

/-- Claim C8: Cancel is idempotent - a second Cancel yields the same
state as the first, and after Cancel the run is complete and both
queues are empty. -/
theorem c8_cancel_idempotent (s : RunState) :
    cancel (cancel s) = cancel s
    ∧ (cancel s).isComplete = true
    ∧ (cancel s).eventQueue = []
    ∧ (cancel s).inputGuardrailQueue = [] :=
  ⟨cancel_cancel_eq s, rfl, rfl, rfl⟩

end AgentsGo

/-! Computable models of the Go strings package functions used by the
workflowrunner package. Lean's own String.trim and String.toLower do not
reduce in the kernel, so the two functions are re-implemented over the
character list; they are faithful to Go for ASCII input, which is all
the verified code paths compare against. -/

/-- ASCII lower-casing of one character (model of Go strings.ToLower per
character). -/
def charToLower (c : Char) : Char :=
  if 'A' ≤ c ∧ c ≤ 'Z' then Char.ofNat (c.toNat + 32) else c

/-- Model of Go strings.ToLower. -/
def goToLower (s : String) : String := ⟨s.data.map charToLower⟩

/-- ASCII whitespace (model of the space class Go strings.TrimSpace
strips). -/
def isSpaceChar (c : Char) : Bool := c == ' ' || c == '\t' || c == '\n' || c == '\r'

/-- Model of Go strings.TrimSpace. -/
def goTrimSpace (s : String) : String :=
  ⟨((s.data.dropWhile isSpaceChar).reverse.dropWhile isSpaceChar).reverse⟩

namespace WorkflowRunner

/-! Embedding of the workflowrunner package: the input conversion of
src/unnamed/part_000, the validator of src/workflowrunner/validator.go,
and the reference-resolution core of Builder.Build in
src/unnamed/part_002. JSON payloads (Go `any`) are modelled by a small
value tree; external JSON marshal/unmarshal fallbacks are oracle
parameters. -/

/-- A JSON-like payload value (Go `any`), as far as the verified code
inspects it: a string, an array, an object with string keys, or
anything else. -/
inductive ContentValue where
  | str (s : String)
  | arr (items : List ContentValue)
  | obj (fields : List (String × ContentValue))
  | other

/-- WorkflowInput (src/unnamed/part_002 lines 29-36). -/
structure WorkflowInput where
  type : String
  role : String
  mimeType : String
  uri : String
  content : Option ContentValue

/-- Modelled from the spec: the getString helper of the workflowrunner
package is not under src/; from its call sites it returns the string
under a key of a JSON object when that key holds a string. -/
def getString (fields : List (String × ContentValue)) (key : String) : Option String :=
  match fields.find? (fun p => p.1 == key) with
  | some (_, .str v) => some v
  | _ => none

/-- defaultString (src/unnamed/part_000 lines 277-282). -/
def defaultString (value fallback : String) : String :=
  if goTrimSpace value == "" then fallback else value

/-- The message roles of the external responses package. -/
inductive EasyInputMessageRole where
  | user
  | assistant
  | system
  | developer
  deriving DecidableEq

/-- Image detail levels of the external responses package. -/
inductive ImageDetail where
  | auto
  | low
  | high
  deriving DecidableEq

/-- A normalized content part (the external
ResponseInputContentUnionParam, restricted to the variants this code
builds). -/
inductive ResponseInputContent where
  | inputText (text : String)
  | inputImage (detail : ImageDetail) (imageURL : Option String) (fileID : Option String)
  | inputFile (fileURL : Option String) (fileData : Option String) (fileID : Option String)

/-- The message content union of the external responses package. -/
inductive EasyInputMessageContent where
  | ofString (s : String)
  | ofInputItemContentList (items : List ResponseInputContent)

/-- EasyInputMessageParam as built by buildMessageInput: role, the
constant "message" type tag, and content. -/
structure EasyInputMessageParam where
  role : EasyInputMessageRole
  type : String
  content : EasyInputMessageContent

/-- The external ResponseInputItemUnionParam, restricted to the variant
this code produces. -/
inductive ResponseInputItemUnion where
  | ofMessage (m : EasyInputMessageParam)

/-- The error cases of the input-conversion path
(src/unnamed/part_000); each constructor stands for one fmt.Errorf site.
recursionLimit is an artifact of the fuel encoding and is unreachable:
every recursive call passes an input whose Type is the literal
"message". -/
inductive InputConversionError where
  | roleNotSupported (role : String)
  | messageRequiresContent
  | textRequiresContent
  | imageRequiresPayload
  | partsMustBeArray
  | textContentRequiresText
  | imageContentRequiresURLOrFileID
  | fileContentRequiresPayload
  | customContentNotRecognized (kind : String)
  | unsupportedContentItem
  | decodeMessageContentFailed
  | messageContentTypeNotSupported
  | contentListEmpty
  | typeNotSupported (ty : String)
  | recursionLimit

/-- normalizeMessageRole (src/unnamed/part_000 lines 262-275). -/
def normalizeMessageRole (role : String) : Except InputConversionError EasyInputMessageRole :=
  let r := goToLower (goTrimSpace role)
  if r == "" || r == "user" then .ok .user
  else if r == "assistant" then .ok .assistant
  else if r == "system" then .ok .system
  else if r == "developer" then .ok .developer
  else .error (.roleNotSupported role)

/-- buildContentUnion (src/unnamed/part_000 lines 173-260). The
marshal-then-decode fallback for unrecognized kinds goes through the
external JSON machinery and is the oracle `dc`; `none` covers its three
failure modes, reported as the missing-recognized-payload error. -/
def buildContentUnion (dc : List (String × ContentValue) → Option ResponseInputContent)
    (value : ContentValue) : Except InputConversionError ResponseInputContent :=
  match value with
  | .str v => .ok (.inputText v)
  | .obj fields =>
    let kindValue := (getString fields "type").getD ""
    let kind := goToLower (goTrimSpace (defaultString kindValue "input_text"))
    if kind == "input_text" || kind == "text" then
      match getString fields "text" with
      | some text =>
        if goTrimSpace text == "" then .error .textContentRequiresText
        else .ok (.inputText text)
      | none => .error .textContentRequiresText
    else if kind == "input_image" || kind == "image" then
      let detail : ImageDetail :=
        match getString fields "detail" with
        | some d =>
          if d == "" then .auto
          else
            let dl := goToLower d
            if dl == "low" then .low else if dl == "high" then .high else .auto
        | none => .auto
      let imageURL : Option String :=
        match getString fields "image_url" with
        | some url => if goTrimSpace url == "" then none else some (goTrimSpace url)
        | none => none
      let fileID : Option String :=
        match getString fields "file_id" with
        | some fid => if goTrimSpace fid == "" then none else some (goTrimSpace fid)
        | none => none
      if imageURL.isNone && fileID.isNone then .error .imageContentRequiresURLOrFileID
      else .ok (.inputImage detail imageURL fileID)
    else if kind == "input_file" || kind == "file" then
      let fileURL : Option String :=
        match getString fields "file_url" with
        | some url => if goTrimSpace url == "" then none else some (goTrimSpace url)
        | none => none
      let fileData : Option String :=
        match getString fields "file_data" with
        | some dta => if goTrimSpace dta == "" then none else some (goTrimSpace dta)
        | none => none
      let fileID : Option String :=
        match getString fields "file_id" with
        | some fid => if goTrimSpace fid == "" then none else some (goTrimSpace fid)
        | none => none
      if fileURL.isNone && fileData.isNone && fileID.isNone then
        .error .fileContentRequiresPayload
      else .ok (.inputFile fileURL fileData fileID)
    else
      match dc fields with
      | some u => .ok u
      | none => .error (.customContentNotRecognized kind)
  | _ => .error .unsupportedContentItem

/-- Loop of buildMessageContentList (src/unnamed/part_000 lines
162-169); the per-index error wrapping carries no extra data here. -/
def buildMessageContentListGo (dc : List (String × ContentValue) → Option ResponseInputContent) :
    List ContentValue → Except InputConversionError (List ResponseInputContent)
  | [] => .ok []
  | p :: rest =>
    match buildContentUnion dc p with
    | .error e => .error e
    | .ok c => (buildMessageContentListGo dc rest).map (fun cs => c :: cs)

/-- buildMessageContentList (src/unnamed/part_000 lines 158-171). -/
def buildMessageContentList (dc : List (String × ContentValue) → Option ResponseInputContent)
    (parts : List ContentValue) : Except InputConversionError (List ResponseInputContent) :=
  if parts.isEmpty then .error .contentListEmpty
  else buildMessageContentListGo dc parts

/-- buildMessageInput (src/unnamed/part_000 lines 78-156). The
map-content fallback that marshals the map and decodes it into the
content union is the oracle `dm`; `none` models a marshal/decode failure
or a decoded union without a value. -/
def buildMessageInput (dm : List (String × ContentValue) → Option EasyInputMessageContent)
    (dc : List (String × ContentValue) → Option ResponseInputContent)
    (input : WorkflowInput) : Except InputConversionError EasyInputMessageParam :=
  match normalizeMessageRole input.role with
  | .error e => .error e
  | .ok role =>
    if input.content.isNone && goTrimSpace input.uri != "" then
      match buildMessageContentList dc
          [.obj [("type", .str "input_image"), ("image_url", .str (goTrimSpace input.uri))]] with
      | .error e => .error e
      | .ok items => .ok ⟨role, "message", .ofInputItemContentList items⟩
    else
      match input.content with
      | none => .error .messageRequiresContent
      | some (.str value) => .ok ⟨role, "message", .ofString value⟩
      | some (.arr value) =>
        match buildMessageContentList dc value with
        | .error e => .error e
        | .ok items => .ok ⟨role, "message", .ofInputItemContentList items⟩
      | some (.obj value) =>
        match value.find? (fun p => p.1 == "parts") with
        | some (_, .arr rawParts) =>
          match buildMessageContentList dc rawParts with
          | .error e => .error e
          | .ok items => .ok ⟨role, "message", .ofInputItemContentList items⟩
        | some (_, _) => .error .partsMustBeArray
        | none =>
          match getString value "text" with
          | some text =>
            if text == "" then
              match dm value with
              | some union => .ok ⟨role, "message", union⟩
              | none => .error .decodeMessageContentFailed
            else .ok ⟨role, "message", .ofString text⟩
          | none =>
            match dm value with
            | some union => .ok ⟨role, "message", union⟩
            | none => .error .decodeMessageContentFailed
      | some .other => .error .messageContentTypeNotSupported

/-- workflowInputToResponseItem (src/unnamed/part_000 lines 29-76),
fuel-encoded: both recursive calls pass an input whose Type is the
literal "message", so recursion depth is at most two and the fuel
branch is unreachable from the wrapper below. -/
def workflowInputToResponseItemGo
    (dm : List (String × ContentValue) → Option EasyInputMessageContent)
    (dc : List (String × ContentValue) → Option ResponseInputContent) :
    Nat → WorkflowInput → Except InputConversionError ResponseInputItemUnion
  | 0, _ => .error .recursionLimit
  | fuel + 1, input =>
    let tl := goToLower (goTrimSpace input.type)
    if tl == "message" then
      match buildMessageInput dm dc input with
      | .error e => .error e
      | .ok msg => .ok (.ofMessage msg)
    else if tl == "text" then
      let converted0 : WorkflowInput := { input with type := "message" }
      let converted1 : WorkflowInput :=
        if goTrimSpace converted0.role == "" then { converted0 with role := "user" }
        else converted0
      let converted2 : WorkflowInput :=
        if converted1.content.isNone && goTrimSpace converted1.uri != "" then
          { converted1 with content := some (.str (goTrimSpace converted1.uri)), uri := "" }
        else converted1
      if converted2.content.isNone then .error .textRequiresContent
      else workflowInputToResponseItemGo dm dc fuel converted2
    else if tl == "image" then
      if goTrimSpace input.uri == "" && input.content.isNone then .error .imageRequiresPayload
      else
        let baseContent : List ContentValue :=
          [.obj [("type", .str "input_image"), ("image_url", .str (goTrimSpace input.uri))]]
        let content : List ContentValue :=
          match input.content with
          | some (.arr v) => v
          | some (.obj v) => [.obj v]
          | _ => baseContent
        let message : WorkflowInput :=
          { type := "message"
            role := goTrimSpace (defaultString input.role "user")
            mimeType := ""
            uri := ""
            content := some (.arr content) }
        workflowInputToResponseItemGo dm dc fuel message
    else .error (.typeNotSupported input.type)

/-- workflowInputToResponseItem entry point: depth two suffices. -/
def workflowInputToResponseItem
    (dm : List (String × ContentValue) → Option EasyInputMessageContent)
    (dc : List (String × ContentValue) → Option ResponseInputContent)
    (input : WorkflowInput) : Except InputConversionError ResponseInputItemUnion :=
  workflowInputToResponseItemGo dm dc 2 input

/-- Loop of buildInputItems (src/unnamed/part_000 lines 18-26); the
per-index error wrapping carries no extra data here. -/
def buildInputItemsGo
    (dm : List (String × ContentValue) → Option EasyInputMessageContent)
    (dc : List (String × ContentValue) → Option ResponseInputContent) :
    List WorkflowInput → Except InputConversionError (List ResponseInputItemUnion)
  | [] => .ok []
  | input :: rest =>
    match workflowInputToResponseItem dm dc input with
    | .error e => .error e
    | .ok item => (buildInputItemsGo dm dc rest).map (fun items => item :: items)

/-- buildInputItems (src/unnamed/part_000 lines 14-27). -/
def buildInputItems
    (dm : List (String × ContentValue) → Option EasyInputMessageContent)
    (dc : List (String × ContentValue) → Option ResponseInputContent)
    (inputs : List WorkflowInput) : Except InputConversionError (List ResponseInputItemUnion) :=
  if inputs.isEmpty then .ok []
  else buildInputItemsGo dm dc inputs

/-! The manifest declarations (src/unnamed/part_002) and the validator
(src/workflowrunner/validator.go). Fields consumed only by external
machinery (JSON schemas, template variables, model settings) are
omitted; the fields every validated code path reads are kept. -/

/-- CurrentWorkflowVersion (src/unnamed/part_002 line 12). -/
def CurrentWorkflowVersion : String := "v1"

/-- CallbackRetryPolicy (src/unnamed/part_002 lines 66-70); the float
backoff_seconds field is unused by the verified code and omitted. -/
structure CallbackRetryPolicy where
  maxAttempts : Int

/-- CallbackDeclaration (src/unnamed/part_002 lines 58-64). -/
structure CallbackDeclaration where
  target : String
  mode : String
  headers : List (String × String)
  retry : Option CallbackRetryPolicy

/-- The error cases of CallbackDeclaration.Validate
(src/unnamed/part_002 lines 311-323). -/
inductive CallbackError where
  | targetRequired
  | targetNotValidURL (target : String)

/-- CallbackDeclaration.Validate (src/unnamed/part_002 lines 311-323);
url.ParseRequestURI is external and is the oracle `isValidURL`. -/
def callbackValidate (isValidURL : String → Bool) (c : CallbackDeclaration) :
    Except CallbackError Unit :=
  let mode := goToLower c.mode
  if mode == "stdout" || mode == "stdout_verbose" then .ok ()
  else if goTrimSpace c.target == "" then .error .targetRequired
  else if isValidURL c.target then .ok ()
  else .error (.targetNotValidURL c.target)

/-- isCallbackEmpty (src/workflowrunner/validator.go lines 245-247). -/
def isCallbackEmpty (cb : CallbackDeclaration) : Bool :=
  goTrimSpace cb.target == "" && goTrimSpace cb.mode == ""
    && cb.headers.isEmpty && cb.retry.isNone

/-- CredentialDeclaration (src/unnamed/part_002 lines 50-56); the
metadata map is unused by the verified code and omitted. -/
structure CredentialDeclaration where
  userID : String
  accountID : String
  capabilities : List String

/-- SessionDeclaration (src/unnamed/part_002 lines 39-48); the
store-config map is unused by the verified code and omitted. -/
structure SessionDeclaration where
  sessionID : String
  resumeToken : String
  persistentStore : String
  historySize : Int
  maxTurns : Int
  credentials : CredentialDeclaration

/-- ToolApprovalFlowDeclaration (src/unnamed/part_002 lines 141-145). -/
structure ToolApprovalFlowDeclaration where
  require : String
  resumeMode : String

/-- ToolDeclaration (src/unnamed/part_002 lines 131-138). -/
structure ToolDeclaration where
  type : String
  name : String
  config : List (String × ContentValue)
  approvalFlow : Option ToolApprovalFlowDeclaration
  hooks : List String
  functionRef : String

/-- MCPDeclaration (src/unnamed/part_002 lines 147-153). -/
structure MCPDeclaration where
  type : String
  serverLabel : String
  address : String
  requireApproval : String
  additional : List (String × ContentValue)

/-- GuardrailDeclaration (src/unnamed/part_002 lines 156-161); the
config map is unused by the verified code and omitted. -/
structure GuardrailDeclaration where
  name : String
  target : String
  mode : String

/-- OutputTypeDeclaration (src/unnamed/part_002 lines 164-169); the
schema map is consumed only by the oracle-modelled output-type factory
and omitted. -/
structure OutputTypeDeclaration where
  name : String
  strict : Bool
  presetRef : String

/-- ModelDeclaration (src/unnamed/part_002 lines 172-187); the numeric
settings are consumed only by the oracle-modelled applyModelDeclaration
and omitted, keeping the field the validator reads. -/
structure ModelDeclaration where
  provider : String
  model : String

/-- ToolUseBehaviorDeclaration (src/unnamed/part_002 lines 196-200). -/
structure ToolUseBehaviorDeclaration where
  mode : String
  toolNames : List String
  handler : String

/-- InstructionTemplateDeclaration (src/unnamed/part_002 lines
210-215); delimiters and variables are consumed only by the
oracle-modelled renderer and omitted. -/
structure InstructionTemplateDeclaration where
  template : String
  format : String

/-- InstructionDeclaration (src/unnamed/part_002 lines 203-207). -/
structure InstructionDeclaration where
  text : String
  template : Option InstructionTemplateDeclaration

/-- InstructionDeclaration.IsZero (src/unnamed/part_002 lines 306-308). -/
def InstructionDeclaration.IsZero (i : InstructionDeclaration) : Bool :=
  i.text == "" && i.template.isNone

/-- AgentHandoffDeclaration (src/unnamed/part_002 lines 218-224). -/
structure AgentHandoffDeclaration where
  agent : String
  inputFilter : String
  instructions : String
  instructionsRef : String
  instructionsScope : String

/-- AgentToolReference (src/unnamed/part_002 lines 124-129). -/
structure AgentToolReference where
  agentName : String
  toolName : String
  description : String
  outputExtractor : String

/-- AgentDeclaration (src/unnamed/part_002 lines 104-122); the
annotations map is unused by the verified code and omitted. -/
structure AgentDeclaration where
  name : String
  displayName : String
  instructions : InstructionDeclaration
  promptID : String
  model : Option ModelDeclaration
  handoffs : List AgentHandoffDeclaration
  agentTools : List AgentToolReference
  tools : List ToolDeclaration
  mcpServers : List MCPDeclaration
  inputGuardrails : List GuardrailDeclaration
  outputGuardrails : List GuardrailDeclaration
  outputType : Option OutputTypeDeclaration
  toolUseBehavior : Option ToolUseBehaviorDeclaration
  handoffDescription : String
  hooks : List String

/-- WorkflowDeclaration (src/unnamed/part_002 lines 93-101); the
metadata map is unused by the verified code and omitted. -/
structure WorkflowDeclaration where
  name : String
  startingAgent : String
  agents : List AgentDeclaration
  onStart : List String
  onFinish : List String
  onError : List String

/-- WorkflowRequest (src/unnamed/part_002 lines 16-26); the metadata and
context maps are consumed only by oracle-modelled steps and omitted. -/
structure WorkflowRequest where
  version : String
  query : String
  inputs : List WorkflowInput
  session : SessionDeclaration
  callback : CallbackDeclaration
  callbacks : List CallbackDeclaration
  workflow : WorkflowDeclaration

/-- configString (src/workflowrunner/validator.go lines 249-260): the
string under a config key, trimmed; empty when absent or not a string. -/
def configString (config : List (String × ContentValue)) (key : String) : String :=
  match config.find? (fun p => p.1 == key) with
  | some (_, .str v) => goTrimSpace v
  | _ => ""

/-- The error cases of validateAgentDeclaration
(src/workflowrunner/validator.go lines 152-243), one constructor per
fmt.Errorf site. -/
inductive AgentValidationError where
  | modelModelRequired
  | toolMissingType
  | functionToolRequiresRef
  | computerToolRequiresProvider
  | localShellToolRequiresExecutor
  | approvalRequireNotSupported (v : String)
  | approvalResumeModeNotSupported (v : String)
  | toolHookEmpty (i : Nat)
  | mcpAddressRequired
  | guardrailMissingName
  | guardrailModeNotSupported (name : String) (mode : String)
  | agentHookEmpty (i : Nat)
  | stopAtToolsRequiresToolNames
  | customRequiresHandler
  | toolUseBehaviorModeNotSupported (mode : String)

/-- The error cases of ValidateWorkflowRequest and its helpers
(src/workflowrunner/validator.go), one constructor per fmt.Errorf
site. -/
inductive ValidationError where
  | versionNotSupported (version : String)
  | queryRequired
  | inputMissingType (i : Nat)
  | inputTypeNotSupported (i : Nat) (ty : String)
  | inputMissingPayload (i : Nat)
  | sessionIDRequired
  | userIDRequired
  | accountIDRequired
  | historySizeNegative
  | maxTurnsNegative
  | persistentStoreNotSupported (store : String)
  | callbackInvalid (idx : Option Nat) (e : CallbackError)
  | atLeastOneCallbackRequired
  | workflowNameRequired
  | startingAgentRequired
  | agentsEmpty
  | agentMissingName (i : Nat)
  | duplicateAgentName (name : String)
  | agentInvalid (name : String) (e : AgentValidationError)
  | onStartEmpty (i : Nat)
  | onFinishEmpty (i : Nat)
  | onErrorEmpty (i : Nat)
  | startingAgentNotFound (name : String)
  | handoffMissingAgent (agent : String)
  | handoffNotFound (agent : String) (ref : String)
  | agentToolUnknownAgent (agent : String) (ref : String)

/-- Loop of validateInputs (src/workflowrunner/validator.go lines
47-60). -/
def validateInputsGo : Nat → List WorkflowInput → Except ValidationError Unit
  | _, [] => .ok ()
  | i, input :: rest =>
    if goTrimSpace input.type == "" then .error (.inputMissingType i)
    else
      let typeLower := goToLower input.type
      if typeLower == "text" || typeLower == "message" || typeLower == "json"
          || typeLower == "image" || typeLower == "audio" || typeLower == "video" then
        if goTrimSpace input.uri == "" && input.content.isNone then
          .error (.inputMissingPayload i)
        else validateInputsGo (i + 1) rest
      else .error (.inputTypeNotSupported i input.type)

/-- validateInputs (src/workflowrunner/validator.go lines 46-62). -/
def validateInputs (inputs : List WorkflowInput) : Except ValidationError Unit :=
  validateInputsGo 0 inputs

/-- validateSession (src/workflowrunner/validator.go lines 64-88). -/
def validateSession (session : SessionDeclaration) : Except ValidationError Unit :=
  if session.sessionID == "" then .error .sessionIDRequired
  else if session.credentials.userID == "" then .error .userIDRequired
  else if session.credentials.accountID == "" then .error .accountIDRequired
  else if session.historySize < 0 then .error .historySizeNegative
  else if session.maxTurns < 0 then .error .maxTurnsNegative
  else
    let store := goTrimSpace session.persistentStore
    if store == "" then .ok ()
    else
      let sl := goToLower store
      if sl == "sqlite" || sl == "postgres" then .ok ()
      else .error (.persistentStoreNotSupported session.persistentStore)

/-- The per-tool body of the first tool loop of validateAgentDeclaration
(src/workflowrunner/validator.go lines 158-183). -/
def validateToolBasic (tool : ToolDeclaration) : Except AgentValidationError Unit :=
  if goTrimSpace tool.type == "" then .error .toolMissingType
  else
    let typeLower := goToLower tool.type
    if typeLower == "function" then
      let ref0 := goTrimSpace tool.functionRef
      let ref := if ref0 == "" then configString tool.config "function_ref" else ref0
      if ref == "" && goTrimSpace tool.name == "" then .error .functionToolRequiresRef
      else .ok ()
    else if typeLower == "computer" then
      let provider := configString tool.config "provider"
      if provider == "" && goTrimSpace tool.name == "" then .error .computerToolRequiresProvider
      else .ok ()
    else if typeLower == "local_shell" then
      let executor := configString tool.config "executor_ref"
      if executor == "" && goTrimSpace tool.name == "" then .error .localShellToolRequiresExecutor
      else .ok ()
    else .ok ()

/-- The first tool loop of validateAgentDeclaration. -/
def validateToolsBasic : List ToolDeclaration → Except AgentValidationError Unit
  | [] => .ok ()
  | t :: rest =>
    match validateToolBasic t with
    | .error e => .error e
    | .ok _ => validateToolsBasic rest

/-- Index of the first blank hook name, mirroring the indexed hook loops
of the validator. -/
def firstBlankHook : Nat → List String → Option Nat
  | _, [] => none
  | i, h :: rest => if goTrimSpace h == "" then some i else firstBlankHook (i + 1) rest

/-- The per-tool body of the second tool loop of
validateAgentDeclaration (src/workflowrunner/validator.go lines
184-202): approval-flow modes, then hook names. -/
def validateToolApproval (tool : ToolDeclaration) : Except AgentValidationError Unit :=
  match (match tool.approvalFlow with
         | some af =>
           let req := goToLower af.require
           if req == "" || req == "never" || req == "always" || req == "sensitive" then
             let rm := goToLower af.resumeMode
             if rm == "" || rm == "auto" || rm == "manual" then Except.ok ()
             else Except.error (AgentValidationError.approvalResumeModeNotSupported af.resumeMode)
           else Except.error (AgentValidationError.approvalRequireNotSupported af.require)
         | none => Except.ok ()) with
  | .error e => .error e
  | .ok _ =>
    match firstBlankHook 0 tool.hooks with
    | some i => .error (.toolHookEmpty i)
    | none => .ok ()

/-- The second tool loop of validateAgentDeclaration. -/
def validateToolsApproval : List ToolDeclaration → Except AgentValidationError Unit
  | [] => .ok ()
  | t :: rest =>
    match validateToolApproval t with
    | .error e => .error e
    | .ok _ => validateToolsApproval rest

/-- The MCP loop of validateAgentDeclaration
(src/workflowrunner/validator.go lines 203-207). -/
def validateMCPs : List MCPDeclaration → Except AgentValidationError Unit
  | [] => .ok ()
  | m :: rest =>
    if goTrimSpace m.address == "" then .error .mcpAddressRequired
    else validateMCPs rest

/-- The guardrail loop of validateAgentDeclaration
(src/workflowrunner/validator.go lines 208-217), over the concatenation
of input and output guardrails. -/
def validateGuardrails : List GuardrailDeclaration → Except AgentValidationError Unit
  | [] => .ok ()
  | gr :: rest =>
    if goTrimSpace gr.name == "" then .error .guardrailMissingName
    else
      let mode := goToLower gr.mode
      if mode == "" || mode == "blocking" || mode == "monitor" then validateGuardrails rest
      else .error (.guardrailModeNotSupported gr.name gr.mode)

/-- The tool-use-behavior check of validateAgentDeclaration
(src/workflowrunner/validator.go lines 223-241). -/
def validateToolUseBehavior (tub? : Option ToolUseBehaviorDeclaration) :
    Except AgentValidationError Unit :=
  match tub? with
  | none => .ok ()
  | some tub =>
    let ml := goToLower (goTrimSpace tub.mode)
    if ml == "" || ml == "default" then .ok ()
    else if ml == "run_llm_again" || ml == "stop_on_first_tool" then .ok ()
    else if ml == "stop_at_tools" then
      if tub.toolNames.isEmpty then .error .stopAtToolsRequiresToolNames else .ok ()
    else if ml == "custom" then
      if goTrimSpace tub.handler == "" then .error .customRequiresHandler else .ok ()
    else .error (.toolUseBehaviorModeNotSupported tub.mode)

/-- validateAgentDeclaration (src/workflowrunner/validator.go lines
152-243). -/
def validateAgentDeclaration (agent : AgentDeclaration) : Except AgentValidationError Unit :=
  match (match agent.model with
         | some m =>
           if m.model == "" then Except.error AgentValidationError.modelModelRequired
           else Except.ok ()
         | none => Except.ok ()) with
  | .error e => .error e
  | .ok _ =>
    match validateToolsBasic agent.tools with
    | .error e => .error e
    | .ok _ =>
      match validateToolsApproval agent.tools with
      | .error e => .error e
      | .ok _ =>
        match validateMCPs agent.mcpServers with
        | .error e => .error e
        | .ok _ =>
          match validateGuardrails (agent.inputGuardrails ++ agent.outputGuardrails) with
          | .error e => .error e
          | .ok _ =>
            match firstBlankHook 0 agent.hooks with
            | some i => .error (.agentHookEmpty i)
            | none => validateToolUseBehavior agent.toolUseBehavior

/-- The first agent loop of validateWorkflowDeclaration
(src/workflowrunner/validator.go lines 101-113): reject blank or
duplicate names, validate each declaration, and accumulate the set of
seen names in order. -/
def collectSeen : List AgentDeclaration → Nat → List String → Except ValidationError (List String)
  | [], _, seen => .ok seen
  | a :: rest, i, seen =>
    if a.name == "" then .error (.agentMissingName i)
    else if seen.contains a.name then .error (.duplicateAgentName a.name)
    else
      match validateAgentDeclaration a with
      | .error e => .error (.agentInvalid a.name e)
      | .ok _ => collectSeen rest (i + 1) (seen ++ [a.name])

/-- The indexed blank-hook loops of validateWorkflowDeclaration
(src/workflowrunner/validator.go lines 115-129). -/
def checkHooksNonBlank (mk : Nat → ValidationError) (hooks : List String) :
    Except ValidationError Unit :=
  match firstBlankHook 0 hooks with
  | some i => .error (mk i)
  | none => .ok ()

/-- The handoff reference checks of validateWorkflowDeclaration
(src/workflowrunner/validator.go lines 135-142). -/
def checkHandoffRefs (agentName : String) (seen : List String) :
    List AgentHandoffDeclaration → Except ValidationError Unit
  | [] => .ok ()
  | h :: rest =>
    if goTrimSpace h.agent == "" then .error (.handoffMissingAgent agentName)
    else if seen.contains h.agent then checkHandoffRefs agentName seen rest
    else .error (.handoffNotFound agentName h.agent)

/-- The agent-tool reference checks of validateWorkflowDeclaration
(src/workflowrunner/validator.go lines 143-147). -/
def checkAgentToolRefs (agentName : String) (seen : List String) :
    List AgentToolReference → Except ValidationError Unit
  | [] => .ok ()
  | t :: rest =>
    if seen.contains t.agentName then checkAgentToolRefs agentName seen rest
    else .error (.agentToolUnknownAgent agentName t.agentName)

/-- The reference-check loop over all agents
(src/workflowrunner/validator.go lines 134-148). -/
def checkAgentRefs (seen : List String) : List AgentDeclaration → Except ValidationError Unit
  | [] => .ok ()
  | a :: rest =>
    match checkHandoffRefs a.name seen a.handoffs with
    | .error e => .error e
    | .ok _ =>
      match checkAgentToolRefs a.name seen a.agentTools with
      | .error e => .error e
      | .ok _ => checkAgentRefs seen rest

/-- validateWorkflowDeclaration (src/workflowrunner/validator.go lines
90-150). -/
def validateWorkflowDeclaration (w : WorkflowDeclaration) : Except ValidationError Unit :=
  if w.name == "" then .error .workflowNameRequired
  else if w.startingAgent == "" then .error .startingAgentRequired
  else if w.agents.isEmpty then .error .agentsEmpty
  else
    match collectSeen w.agents 0 [] with
    | .error e => .error e
    | .ok seen =>
      match checkHooksNonBlank .onStartEmpty w.onStart with
      | .error e => .error e
      | .ok _ =>
        match checkHooksNonBlank .onFinishEmpty w.onFinish with
        | .error e => .error e
        | .ok _ =>
          match checkHooksNonBlank .onErrorEmpty w.onError with
          | .error e => .error e
          | .ok _ =>
            if seen.contains w.startingAgent then checkAgentRefs seen w.agents
            else .error (.startingAgentNotFound w.startingAgent)

/-- The indexed callbacks loop of ValidateWorkflowRequest
(src/workflowrunner/validator.go lines 31-36). -/
def validateCallbacksList (isValidURL : String → Bool) :
    Nat → List CallbackDeclaration → Except ValidationError Unit
  | _, [] => .ok ()
  | i, cb :: rest =>
    match callbackValidate isValidURL cb with
    | .error e => .error (.callbackInvalid (some i) e)
    | .ok _ => validateCallbacksList isValidURL (i + 1) rest

/-- ValidateWorkflowRequest (src/workflowrunner/validator.go lines
11-44). The callback counter equals one for a non-empty singular
callback plus the length of the callbacks list, since every counted
callback validated successfully. -/
def ValidateWorkflowRequest (isValidURL : String → Bool) (req : WorkflowRequest) :
    Except ValidationError Unit :=
  let version := goTrimSpace req.version
  if version != "" && version != CurrentWorkflowVersion then
    .error (.versionNotSupported req.version)
  else if goTrimSpace req.query == "" then .error .queryRequired
  else
    match validateInputs req.inputs with
    | .error e => .error e
    | .ok _ =>
      match validateSession req.session with
      | .error e => .error e
      | .ok _ =>
        match (if isCallbackEmpty req.callback then Except.ok ()
               else
                 match callbackValidate isValidURL req.callback with
                 | .error e => Except.error (ValidationError.callbackInvalid none e)
                 | .ok _ => Except.ok ()) with
        | .error e => .error e
        | .ok _ =>
          match validateCallbacksList isValidURL 0 req.callbacks with
          | .error e => .error e
          | .ok _ =>
            if (if isCallbackEmpty req.callback then 0 else 1) + req.callbacks.length == 0 then
              .error .atLeastOneCallbackRequired
            else
              match validateWorkflowDeclaration req.workflow with
              | .error e => .error e
              | .ok _ => .ok ()

/-! Builder.Build (src/unnamed/part_002 lines 518-705). The build wires
declarations into SDK objects; the SDK-constructing sub-steps (session
factories, template rendering, model settings, output types, guardrail
factories, hook registries, tool factories) are opaque to the
reference-resolution logic under verification and are represented by
their outcomes in a BuilderEnv. The agent map, the two passes, and
every lookup against the map are translated from the source. -/

/-- toolsFromMCP (src/unnamed/part_002 lines 1009-1033). The Go config
map is built in insertion order; the Additional map's iteration order is
unspecified in Go and is determinized as list order here - no verified
path depends on it. -/
def toolsFromMCP (decls : List MCPDeclaration) : List ToolDeclaration :=
  decls.map (fun d =>
    let config0 : List (String × ContentValue) :=
      [("server_label", .str d.serverLabel), ("server_url", .str d.address)]
    let config1 :=
      if d.requireApproval != "" then config0 ++ [("require_approval", .str d.requireApproval)]
      else config0
    { type := "hosted_mcp"
      name := d.serverLabel
      config := config1 ++ d.additional
      approvalFlow := none
      hooks := []
      functionRef := "" })

/-- The builder's registries and the outcomes of its opaque sub-steps.
Each function models the success-or-error result of the corresponding
Builder method or helper; the registered tool-factory types and
agent-tool extractor names model the key sets of the Go registry maps. -/
structure BuilderEnv where
  sessionResult : SessionDeclaration → Except String Unit
  renderInstructionsResult : AgentDeclaration → Except String Unit
  modelResult : ModelDeclaration → Except String Unit
  outputTypeResult : OutputTypeDeclaration → Except String Unit
  inputGuardrailsResult : List GuardrailDeclaration → Except String Unit
  outputGuardrailsResult : List GuardrailDeclaration → Except String Unit
  toolUseBehaviorResult : Option ToolUseBehaviorDeclaration → Except String Unit
  agentHooksResult : List String → Except String Unit
  toolFactoryTypes : List String
  toolFactoryResult : ToolDeclaration → Except String Unit
  agentToolExtractors : List String
  runHooksResult : List String → Except String Unit

/-- The error cases of the build, one constructor per return-error site
of Builder.Build, with the oracle-modelled failures folded into their
site's constructor. -/
inductive BuildError where
  | validation (e : ValidationError)
  | sessionFailed (msg : String)
  | agentSetupFailed (agent : String) (msg : String)
  | unknownHandoffAgent (agent : String) (ref : String)
  | unknownAgentToolAgent (agent : String) (ref : String)
  | extractorNotRegistered (agent : String) (ref : String) (extractor : String)
  | toolTypeNotRegistered (agent : String) (toolType : String)
  | toolFactoryFailed (agent : String) (toolType : String) (msg : String)
  | startingAgentMissing (name : String)
  | runHooksFailed (msg : String)

/-- The three reference-resolution error branches of Build. -/
def BuildError.isReferenceResolutionError : BuildError → Bool
  | .unknownHandoffAgent _ _ => true
  | .unknownAgentToolAgent _ _ => true
  | .startingAgentMissing _ => true
  | _ => false

/-- The outcome of the per-agent SDK-construction steps of Build's first
pass, in source order: instructions (when not zero), model, output
type, input guardrails, output guardrails, tool-use behavior, hooks
(when present). -/
def firstPassSteps (env : BuilderEnv) (decl : AgentDeclaration) : Except String Unit :=
  match (if decl.instructions.IsZero then Except.ok ()
         else env.renderInstructionsResult decl) with
  | .error m => .error m
  | .ok _ =>
    match (match decl.model with
           | some m => env.modelResult m
           | none => Except.ok ()) with
    | .error m => .error m
    | .ok _ =>
      match (match decl.outputType with
             | some o => env.outputTypeResult o
             | none => Except.ok ()) with
      | .error m => .error m
      | .ok _ =>
        match env.inputGuardrailsResult decl.inputGuardrails with
        | .error m => .error m
        | .ok _ =>
          match env.outputGuardrailsResult decl.outputGuardrails with
          | .error m => .error m
          | .ok _ =>
            match env.toolUseBehaviorResult decl.toolUseBehavior with
            | .error m => .error m
            | .ok _ =>
              if decl.hooks.isEmpty then .ok ()
              else env.agentHooksResult decl.hooks

/-- Build's first pass (src/unnamed/part_002 lines 546-610): construct
each agent, aborting on the first failure, and record every declared
name in the agent map (keyed by the declaration name). -/
def buildFirstPass (env : BuilderEnv) : List AgentDeclaration → Except BuildError (List String)
  | [] => .ok []
  | decl :: rest =>
    match firstPassSteps env decl with
    | .error msg => .error (.agentSetupFailed decl.name msg)
    | .ok _ =>
      match buildFirstPass env rest with
      | .error e => .error e
      | .ok names => .ok (decl.name :: names)

/-- The handoff-attachment lookups of Build's second pass
(src/unnamed/part_002 lines 616-626). -/
def resolveHandoffs (agentMap : List String) (agentName : String) :
    List AgentHandoffDeclaration → Except BuildError Unit
  | [] => .ok ()
  | ref :: rest =>
    if agentMap.contains ref.agent then resolveHandoffs agentMap agentName rest
    else .error (.unknownHandoffAgent agentName ref.agent)

/-- The agent-tool lookups of Build's second pass (src/unnamed/part_002
lines 627-645): the target agent must be in the map and a declared
output extractor must be registered. -/
def resolveAgentTools (env : BuilderEnv) (agentMap : List String) (agentName : String) :
    List AgentToolReference → Except BuildError Unit
  | [] => .ok ()
  | ref :: rest =>
    if agentMap.contains ref.agentName then
      if goTrimSpace ref.outputExtractor != "" then
        if env.agentToolExtractors.contains ref.outputExtractor then
          resolveAgentTools env agentMap agentName rest
        else .error (.extractorNotRegistered agentName ref.agentName ref.outputExtractor)
      else resolveAgentTools env agentMap agentName rest
    else .error (.unknownAgentToolAgent agentName ref.agentName)

/-- The tool-factory lookups and invocations of Build's second pass
(src/unnamed/part_002 lines 646-663). -/
def resolveTools (env : BuilderEnv) (agentName : String) :
    List ToolDeclaration → Except BuildError Unit
  | [] => .ok ()
  | toolDecl :: rest =>
    if env.toolFactoryTypes.contains toolDecl.type then
      match env.toolFactoryResult toolDecl with
      | .error msg => .error (.toolFactoryFailed agentName toolDecl.type msg)
      | .ok _ => resolveTools env agentName rest
    else .error (.toolTypeNotRegistered agentName toolDecl.type)

/-- Build's second pass (src/unnamed/part_002 lines 613-664): attach
handoffs and tools after all agents exist. -/
def buildSecondPass (env : BuilderEnv) (agentMap : List String) :
    List AgentDeclaration → Except BuildError Unit
  | [] => .ok ()
  | decl :: rest =>
    match resolveHandoffs agentMap decl.name decl.handoffs with
    | .error e => .error e
    | .ok _ =>
      match resolveAgentTools env agentMap decl.name decl.agentTools with
      | .error e => .error e
      | .ok _ =>
        match resolveTools env decl.name (decl.tools ++ toolsFromMCP decl.mcpServers) with
        | .error e => .error e
        | .ok _ => buildSecondPass env agentMap rest

/-- The result of a successful build, restricted to the resolution data
the claims inspect. -/
structure BuildResult where
  startingAgent : String
  agentNames : List String

/-- Builder.Build (src/unnamed/part_002 lines 518-705): validate, then
acquire a session when there are no inputs, run the two passes, resolve
the starting agent, and assemble the run configuration (whose hook
construction is the last fallible step). -/
def build (env : BuilderEnv) (isValidURL : String → Bool) (req : WorkflowRequest) :
    Except BuildError BuildResult :=
  match ValidateWorkflowRequest isValidURL req with
  | .error e => .error (.validation e)
  | .ok _ =>
    match (if req.inputs.isEmpty then
             match env.sessionResult req.session with
             | .error msg => Except.error (BuildError.sessionFailed msg)
             | .ok _ => Except.ok ()
           else Except.ok ()) with
    | .error e => .error e
    | .ok _ =>
      match buildFirstPass env req.workflow.agents with
      | .error e => .error e
      | .ok agentMap =>
        match buildSecondPass env agentMap req.workflow.agents with
        | .error e => .error e
        | .ok _ =>
          if agentMap.contains req.workflow.startingAgent then
            match env.runHooksResult
                (req.workflow.onStart ++ req.workflow.onFinish ++ req.workflow.onError) with
            | .error msg => .error (.runHooksFailed msg)
            | .ok _ => .ok ⟨req.workflow.startingAgent, agentMap⟩
          else .error (.startingAgentMissing req.workflow.startingAgent)

/-! Lemmas connecting the validator's reference checks with the
builder's lookups. -/

theorem collectSeen_ok_names :
    ∀ (agents : List AgentDeclaration) (i : Nat) (seen0 seen : List String),
      collectSeen agents i seen0 = .ok seen →
      seen = seen0 ++ agents.map (fun a => a.name) := by
  intro agents
  induction agents with
  | nil =>
    intro i seen0 seen h
    rw [collectSeen] at h
    simp only [Except.ok.injEq] at h
    simp [← h]
  | cons a rest ih =>
    intro i seen0 seen h
    rw [collectSeen] at h
    split at h
    · exact absurd h (by simp)
    · split at h
      · exact absurd h (by simp)
      · split at h
        · exact absurd h (by simp)
        · have := ih (i + 1) (seen0 ++ [a.name]) seen h
          simpa using this

theorem buildFirstPass_ok_names (env : BuilderEnv) :
    ∀ (agents : List AgentDeclaration) (names : List String),
      buildFirstPass env agents = .ok names →
      names = agents.map (fun a => a.name) := by
  intro agents
  induction agents with
  | nil =>
    intro names h
    rw [buildFirstPass] at h
    simp only [Except.ok.injEq] at h
    simp [← h]
  | cons a rest ih =>
    intro names h
    rw [buildFirstPass] at h
    cases hs : firstPassSteps env a with
    | error m => rw [hs] at h; exact absurd h (by simp)
    | ok u =>
      rw [hs] at h
      cases hr : buildFirstPass env rest with
      | error e' => rw [hr] at h; exact absurd h (by simp)
      | ok names' =>
        rw [hr] at h
        simp only [Except.ok.injEq] at h
        rw [← h, List.map_cons, ih names' hr]

theorem buildFirstPass_not_ref_error (env : BuilderEnv) :
    ∀ (agents : List AgentDeclaration) (e : BuildError),
      buildFirstPass env agents = .error e →
      e.isReferenceResolutionError = false := by
  intro agents
  induction agents with
  | nil => intro e h; rw [buildFirstPass] at h; exact absurd h (by simp)
  | cons a rest ih =>
    intro e h
    rw [buildFirstPass] at h
    cases hs : firstPassSteps env a with
    | error m =>
      rw [hs] at h
      simp only [Except.error.injEq] at h
      rw [← h]; rfl
    | ok u =>
      rw [hs] at h
      cases hr : buildFirstPass env rest with
      | error e' =>
        rw [hr] at h
        simp only [Except.error.injEq] at h
        rw [← h]; exact ih e' hr
      | ok names' => rw [hr] at h; exact absurd h (by simp)

theorem resolveHandoffs_of_checked (seen : List String) (agentName : String) :
    ∀ hs, checkHandoffRefs agentName seen hs = .ok () →
      resolveHandoffs seen agentName hs = .ok () := by
  intro hs
  induction hs with
  | nil => intro _; rfl
  | cons h rest ih =>
    intro hchk
    rw [checkHandoffRefs] at hchk
    cases htr : (goTrimSpace h.agent == "") with
    | true => simp only [htr, if_true] at hchk; exact absurd hchk (by simp)
    | false =>
      simp only [htr, Bool.false_eq_true, if_false] at hchk
      cases hc : seen.contains h.agent with
      | false =>
        simp only [hc, Bool.false_eq_true, if_false] at hchk
        exact absurd hchk (by simp)
      | true =>
        simp only [hc, if_true] at hchk
        rw [resolveHandoffs]
        simp only [hc, if_true]
        exact ih hchk

theorem resolveAgentTools_not_ref_error (env : BuilderEnv) (seen : List String)
    (agentName : String) :
    ∀ refs e, checkAgentToolRefs agentName seen refs = .ok () →
      resolveAgentTools env seen agentName refs = .error e →
      e.isReferenceResolutionError = false := by
  intro refs
  induction refs with
  | nil =>
    intro e _ hres
    rw [resolveAgentTools] at hres
    exact absurd hres (by simp)
  | cons r rest ih =>
    intro e hchk hres
    rw [checkAgentToolRefs] at hchk
    rw [resolveAgentTools] at hres
    cases hc : seen.contains r.agentName with
    | false =>
      simp only [hc, Bool.false_eq_true, if_false] at hchk
      exact absurd hchk (by simp)
    | true =>
      simp only [hc, if_true] at hchk hres
      cases hx : (goTrimSpace r.outputExtractor != "") with
      | false =>
        simp only [hx, Bool.false_eq_true, if_false] at hres
        exact ih e hchk hres
      | true =>
        simp only [hx, if_true] at hres
        cases hreg : env.agentToolExtractors.contains r.outputExtractor with
        | true =>
          simp only [hreg, if_true] at hres
          exact ih e hchk hres
        | false =>
          simp only [hreg, Bool.false_eq_true, if_false, Except.error.injEq] at hres
          rw [← hres]; rfl

theorem resolveTools_not_ref_error (env : BuilderEnv) (agentName : String) :
    ∀ ts e, resolveTools env agentName ts = .error e →
      e.isReferenceResolutionError = false := by
  intro ts
  induction ts with
  | nil =>
    intro e h
    rw [resolveTools] at h
    exact absurd h (by simp)
  | cons t rest ih =>
    intro e h
    rw [resolveTools] at h
    cases hc : env.toolFactoryTypes.contains t.type with
    | false =>
      simp only [hc, Bool.false_eq_true, if_false, Except.error.injEq] at h
      rw [← h]; rfl
    | true =>
      simp only [hc, if_true] at h
      cases hf : env.toolFactoryResult t with
      | error msg =>
        rw [hf] at h
        simp only [Except.error.injEq] at h
        rw [← h]; rfl
      | ok u => rw [hf] at h; exact ih e h

theorem buildSecondPass_not_ref_error (env : BuilderEnv) (seen : List String) :
    ∀ agents e, checkAgentRefs seen agents = .ok () →
      buildSecondPass env seen agents = .error e →
      e.isReferenceResolutionError = false := by
  intro agents
  induction agents with
  | nil =>
    intro e _ hres
    rw [buildSecondPass] at hres
    exact absurd hres (by simp)
  | cons a rest ih =>
    intro e hchk hres
    rw [checkAgentRefs] at hchk
    rw [buildSecondPass] at hres
    cases hh : checkHandoffRefs a.name seen a.handoffs with
    | error e' => rw [hh] at hchk; exact absurd hchk (by simp)
    | ok u =>
      cases u
      rw [hh] at hchk
      rw [resolveHandoffs_of_checked seen a.name a.handoffs hh] at hres
      cases hat : checkAgentToolRefs a.name seen a.agentTools with
      | error e' => rw [hat] at hchk; exact absurd hchk (by simp)
      | ok v =>
        cases v
        rw [hat] at hchk
        cases hrt : resolveAgentTools env seen a.name a.agentTools with
        | error e' =>
          rw [hrt] at hres
          simp only [Except.error.injEq] at hres
          rw [← hres]
          exact resolveAgentTools_not_ref_error env seen a.name a.agentTools e' hat hrt
        | ok w =>
          cases w
          rw [hrt] at hres
          cases hts : resolveTools env a.name (a.tools ++ toolsFromMCP a.mcpServers) with
          | error e' =>
            rw [hts] at hres
            simp only [Except.error.injEq] at hres
            rw [← hres]
            exact resolveTools_not_ref_error env a.name _ e' hts
          | ok x =>
            cases x
            rw [hts] at hres
            exact ih e hchk hres

/-- The session-acquisition step of Build errors only with the
session-failure constructor. -/
theorem sessionStep_not_ref_error (env : BuilderEnv) (req : WorkflowRequest) (e : BuildError)
    (h : (if req.inputs.isEmpty then
            match env.sessionResult req.session with
            | .error msg => Except.error (BuildError.sessionFailed msg)
            | .ok _ => Except.ok ()
          else Except.ok ()) = .error e) :
    e.isReferenceResolutionError = false := by
  split at h
  · split at h
    · simp only [Except.error.injEq] at h
      rw [← h]; rfl
    · exact absurd h (by simp)
  · exact absurd h (by simp)

set_option maxRecDepth 4000 in
theorem validateWorkflowRequest_ok_workflow (isValidURL : String → Bool)
    (req : WorkflowRequest)
    (h : ValidateWorkflowRequest isValidURL req = .ok ()) :
    validateWorkflowDeclaration req.workflow = .ok () := by
  rw [ValidateWorkflowRequest] at h
  repeat' split at h
  all_goals
    first
    | (simp at h; done)
    | (rename_i u heq; cases u; exact heq)

set_option maxRecDepth 4000 in
set_option linter.unusedTactic false in
theorem validateWorkflowDeclaration_ok_parts (w : WorkflowDeclaration)
    (h : validateWorkflowDeclaration w = .ok ()) :
    ∃ seen, collectSeen w.agents 0 [] = .ok seen
      ∧ seen.contains w.startingAgent = true
      ∧ checkAgentRefs seen w.agents = .ok () := by
  rw [validateWorkflowDeclaration] at h
  repeat' split at h
  all_goals try (simp at h; done)
  exact ⟨_, by assumption, by assumption, h⟩

/-- Claim C9: on a request that ValidateWorkflowRequest accepts, the
three reference-resolution error branches of build are unreachable -
whatever error build returns, it is not the unknown-handoff-agent,
unknown-agent-tool-agent, or starting-agent-missing error, because the
validator checked every reference against exactly the set of agent
names the first pass later records in the agent map. -/
theorem c9_validated_references_resolve (env : BuilderEnv) (isValidURL : String → Bool)
    (req : WorkflowRequest) (e : BuildError)
    (hvalid : ValidateWorkflowRequest isValidURL req = .ok ())
    (hbuild : build env isValidURL req = .error e) :
    e.isReferenceResolutionError = false := by
  obtain ⟨seen, hseen, hstart, hrefs⟩ :=
    validateWorkflowDeclaration_ok_parts _ (validateWorkflowRequest_ok_workflow _ _ hvalid)
  have hseen_eq : seen = req.workflow.agents.map (fun a => a.name) := by
    simpa using collectSeen_ok_names req.workflow.agents 0 [] seen hseen
  rw [build, hvalid] at hbuild
  cases hsess : (if req.inputs.isEmpty then
      match env.sessionResult req.session with
      | .error msg => Except.error (BuildError.sessionFailed msg)
      | .ok _ => Except.ok ()
    else Except.ok ()) with
  | error e' =>
    rw [hsess] at hbuild
    simp only [Except.error.injEq] at hbuild
    rw [← hbuild]
    exact sessionStep_not_ref_error env req e' hsess
  | ok u =>
    cases u
    rw [hsess] at hbuild
    cases hfp : buildFirstPass env req.workflow.agents with
    | error e' =>
      rw [hfp] at hbuild
      simp only [Except.error.injEq] at hbuild
      rw [← hbuild]
      exact buildFirstPass_not_ref_error env req.workflow.agents e' hfp
    | ok agentMap =>
      rw [hfp] at hbuild
      simp only [] at hbuild
      have hmap_eq : agentMap = seen := by
        rw [buildFirstPass_ok_names env req.workflow.agents agentMap hfp, hseen_eq]
      cases hsp : buildSecondPass env agentMap req.workflow.agents with
      | error e' =>
        rw [hsp] at hbuild
        simp only [Except.error.injEq] at hbuild
        rw [← hbuild]
        rw [hmap_eq] at hsp
        exact buildSecondPass_not_ref_error env seen req.workflow.agents e' hrefs hsp
      | ok v =>
        cases v
        rw [hsp] at hbuild
        rw [hmap_eq, hstart] at hbuild
        simp only [if_true] at hbuild
        cases hrh : env.runHooksResult
            (req.workflow.onStart ++ req.workflow.onFinish ++ req.workflow.onError) with
        | error msg =>
          rw [hrh] at hbuild
          simp only [Except.error.injEq] at hbuild
          rw [← hbuild]; rfl
        | ok w =>
          rw [hrh] at hbuild
          exact absurd hbuild (by simp)

/-- A builder environment whose session acquisition fails and whose
other sub-steps succeed, with no tool factories or extractors
registered. -/
def env0 : BuilderEnv :=
  { sessionResult := fun _ => .error "session store unavailable"
    renderInstructionsResult := fun _ => .ok ()
    modelResult := fun _ => .ok ()
    outputTypeResult := fun _ => .ok ()
    inputGuardrailsResult := fun _ => .ok ()
    outputGuardrailsResult := fun _ => .ok ()
    toolUseBehaviorResult := fun _ => .ok ()
    agentHooksResult := fun _ => .ok ()
    toolFactoryTypes := []
    toolFactoryResult := fun _ => .ok ()
    agentToolExtractors := []
    runHooksResult := fun _ => .ok () }

/-- A minimal agent declaration. -/
def agentDecl0 : AgentDeclaration :=
  { name := "main"
    displayName := ""
    instructions := ⟨"", none⟩
    promptID := ""
    model := none
    handoffs := []
    agentTools := []
    tools := []
    mcpServers := []
    inputGuardrails := []
    outputGuardrails := []
    outputType := none
    toolUseBehavior := none
    handoffDescription := ""
    hooks := [] }

/-- A minimal valid workflow request using a stdout callback. -/
def req0 : WorkflowRequest :=
  { version := ""
    query := "hi"
    inputs := []
    session := ⟨"s1", "", "", 0, 0, ⟨"u1", "a1", []⟩⟩
    callback := ⟨"", "stdout", [], none⟩
    callbacks := []
    workflow := ⟨"wf", "main", [agentDecl0], [], [], []⟩ }

/-- Witness for c9_validated_references_resolve: req0 validates, and
build fails on session acquisition with a non-reference error. -/
theorem c9_validated_references_resolve_witness :
    (BuildError.sessionFailed "session store unavailable").isReferenceResolutionError = false :=
  c9_validated_references_resolve env0 (fun _ => true) req0
    (.sessionFailed "session store unavailable") rfl rfl

/-- Claim C10: an input whose (space-free) type is json, audio or video
in any letter case and which provides a uri or content passes
validateInputs, yet workflowInputToResponseItem rejects it with the
not-supported-yet error, so buildInputItems rejects an input list the
validator accepted. -/
theorem c10_validator_accepts_unconvertible (input : WorkflowInput)
    (dm : List (String × ContentValue) → Option EasyInputMessageContent)
    (dc : List (String × ContentValue) → Option ResponseInputContent)
    (hty : goToLower input.type = "json" ∨ goToLower input.type = "audio"
      ∨ goToLower input.type = "video")
    (htrim : goTrimSpace input.type = input.type)
    (hpayload : goTrimSpace input.uri ≠ "" ∨ input.content.isSome = true) :
    validateInputs [input] = .ok ()
    ∧ workflowInputToResponseItem dm dc input = .error (.typeNotSupported input.type)
    ∧ buildInputItems dm dc [input] = .error (.typeNotSupported input.type) := by
  have hne : input.type ≠ "" := by
    intro h0
    rcases hty with h | h | h <;> rw [h0] at h <;> exact absurd h (by decide)
  have htrimne : (goTrimSpace input.type == "") = false := by
    rw [htrim]
    exact beq_eq_false_iff_ne.mpr hne
  have hpayload' : (goTrimSpace input.uri == "" && input.content.isNone) = false := by
    rcases hpayload with h | h
    · simp [beq_eq_false_iff_ne.mpr h]
    · rcases Option.isSome_iff_exists.mp h with ⟨v, hv⟩
      simp [hv]
  have hval : validateInputs [input] = .ok () := by
    rw [validateInputs, validateInputsGo, htrimne]
    rcases hty with h | h | h <;>
      simp [h, hpayload', validateInputsGo]
  have hconv : workflowInputToResponseItem dm dc input = .error (.typeNotSupported input.type) := by
    rw [workflowInputToResponseItem, workflowInputToResponseItemGo, htrim]
    rcases hty with h | h | h <;> simp [h]
  refine ⟨hval, hconv, ?_⟩
  rw [buildInputItems]
  simp only [List.isEmpty_cons, Bool.false_eq_true, if_false]
  rw [buildInputItemsGo, hconv]

/-- A json input with literal content. -/
def jsonInput0 : WorkflowInput :=
  { type := "json", role := "", mimeType := "", uri := "", content := some (.str "payload") }

/-- Witness for c10_validator_accepts_unconvertible at a concrete json
input. -/
theorem c10_validator_accepts_unconvertible_witness :
    validateInputs [jsonInput0] = .ok ()
    ∧ workflowInputToResponseItem (fun _ => none) (fun _ => none) jsonInput0
        = .error (.typeNotSupported jsonInput0.type)
    ∧ buildInputItems (fun _ => none) (fun _ => none) [jsonInput0]
        = .error (.typeNotSupported jsonInput0.type) :=
  c10_validator_accepts_unconvertible jsonInput0 (fun _ => none) (fun _ => none)
    (Or.inl (by decide)) (by decide) (Or.inr rfl)

end WorkflowRunner
